import Mathlib

/-!
# k4s — verification of the event-driven application loop

A shallow embedding of the k4s terminal client core: the view state machine,
the asynchronous task/message protocol, the single- and multi-source log
streaming engine, and the modal overlay dispatch.  Definitions are translated
from the Go sources (`internal/adapter/tui`); the few components whose source
files are not part of the repository snapshot (log viewer widget, help screen,
search input, pod multi-selector, event viewer) are modelled from the
specification and marked as such in their doc comments.

Go conventions mapped to Lean:
* methods on `*App` that mutate the receiver become functions
  `App → ... → App × List Cmd`;
* a `tea.Cmd` becomes a constructor of the `Cmd` inductive; `tea.Batch`
  becomes list concatenation and a `nil` command becomes `[]`;
* launching a producer goroutine is modelled as emitting the producer task
  (`Cmd.streamPodLogs` / `Cmd.streamMultiPodLogs`) alongside the returned
  "await next line" command;
* a `context.WithCancel` scope is modelled by a fresh numeric id drawn from
  `nextCtxId`; calling the cancel function records the id in `cancelledCtxs`;
* Go `error` values become `Option GoErr` (`none` = nil error).
-/

namespace K4s

/-- Distinguished Go error values relevant to the core, plus arbitrary
other errors. `canceled` is `context.Canceled`, `passphraseRequired` is
`ssh.ErrPassphraseRequired`. -/
inductive GoErr where
  | canceled
  | passphraseRequired
  | other (msg : String)
  deriving DecidableEq

/-- `ViewState` from `app.go`: the enumerated set of screens. -/
inductive ViewState where
  | kubeConfigSelect
  | connecting
  | namespaces
  | pods
  | podDetails
  | logs
  | main
  | sshHosts
  | sshConnecting
  | crictlContainers
  | crictlLogs
  | nodeInfo
  | deployments
  | deploymentDetails
  | services
  | serviceDetails
  | events
  | multiPodLogs
  deriving DecidableEq

/-- `domain.ConnectionStatus`. -/
inductive ConnectionStatus where
  | disconnected
  | connecting
  | connected
  | error
  deriving DecidableEq

/-- `domain.KubeConfig` restricted to the fields the core reads. -/
structure KubeConfig where
  name : String
  path : String
  deriving DecidableEq

/-- `domain.SSHHost` restricted to the fields the core reads. -/
structure SSHHost where
  name : String
  host : String
  deriving DecidableEq

/-- `domain.Config`: the in-memory configuration read once at startup. -/
structure Config where
  kubeConfigs : List KubeConfig
  sshHosts : List SSHHost
  deriving DecidableEq

/-- `domain.Pod` restricted to the fields the core reads: the name and the
names of its containers. -/
structure Pod where
  name : String
  containers : List String
  deriving DecidableEq

/-- `domain.ClusterInfo` restricted to the fields the core reads. -/
structure ClusterInfo where
  context : String
  nspace : String
  deriving DecidableEq

/-- `domain.Deployment` restricted to the fields the core reads. -/
structure Deployment where
  name : String
  replicas : Int
  deriving DecidableEq

/-- `domain.Service` restricted to the fields the core reads. -/
structure Service where
  name : String
  deriving DecidableEq

/-- `ssh.CrictlContainer` restricted to the fields the core reads. -/
structure CrictlContainer where
  containerID : String
  name : String
  deriving DecidableEq

/-- `k8s.LogOptions`. -/
structure LogOptions where
  container : String
  tailLines : Int
  timestamps : Bool
  follow : Bool
  deriving DecidableEq

/-- `ConfirmAction` from `confirm_dialog.go`. -/
inductive ConfirmAction where
  | none
  | deletePod
  | restartPod
  | deleteDeployment
  | restartDeployment
  deriving DecidableEq

/-- Notification severity (`NotificationInfo` etc.). -/
inductive NotificationKind where
  | info
  | success
  | warning
  | error
  deriving DecidableEq

/-- The state of a `huh` form: pending, completed or aborted. -/
inductive FormState where
  | pending
  | completed
  | aborted
  deriving DecidableEq

/-- The `huh` form library is an external collaborator outside the specified
core; its internal state transitions are modelled at the interface boundary
as leaving the form pending under arbitrary input.  The dedicated shortcut
keys of each dialog are handled before this function is consulted, exactly
as in the Go sources. -/
def huhFormUpdate (st : FormState) : FormState := st

/-- Messages (`tea.Msg`): the tagged union of all result kinds the event loop
receives, one constructor per message struct in `app.go`, plus `key` for
`tea.KeyMsg`, `windowSize` for `tea.WindowSizeMsg` and `other` for any
remaining runtime message (child-widget internals such as form or cursor
messages). -/
inductive Msg where
  | key (k : String)
  | windowSize (w h : Int)
  | connectResult (err : Option GoErr) (info : ClusterInfo) (metricsOk : Bool)
  | namespacesResult (namespaces : List String) (err : Option GoErr)
  | podsResult (pods : List Pod) (err : Option GoErr)
  | podDetailsResult (err : Option GoErr)
  | podRefreshTick
  | eventRefreshTick
  | podDeleteResult (podName : String) (err : Option GoErr)
  | podRestartResult (podName : String) (err : Option GoErr)
  | notificationExpired
  | containersResult (containers : List String) (err : Option GoErr)
  | logsResult (logs : List String) (err : Option GoErr)
  | logLine (line : String)
  | logStreamEnded (err : Option GoErr)
  | multiPodLogLine (podName container line : String)
  | multiPodLogStreamEnded (podName : String) (err : Option GoErr)
  | sshConnectResult (err : Option GoErr)
  | sshCrictlContainers (containers : List CrictlContainer) (err : Option GoErr)
  | sshNodeInfo (ok : Bool)
  | sshCrictlLogs (logs : List String) (err : Option GoErr)
  | sshCrictlLogLine (line : String)
  | sshCrictlLogStreamEnded (err : Option GoErr)
  | deploymentsResult (deployments : List Deployment) (err : Option GoErr)
  | deploymentDetailsResult (deployment : Option Deployment) (err : Option GoErr)
  | deploymentScaleResult (name : String) (replicas : Int) (err : Option GoErr)
  | deploymentRestartResult (name : String) (err : Option GoErr)
  | deploymentDeleteResult (name : String) (err : Option GoErr)
  | servicesResult (services : List Service) (err : Option GoErr)
  | serviceDetailsResult (service : Option Service) (err : Option GoErr)
  | eventsResult (events : List String) (err : Option GoErr)
  | metricsResult (ok : Bool)
  | spinnerTick
  | other
  deriving DecidableEq

/-- Commands (`tea.Cmd`): the deferred operations the loop emits.  `tea.Batch`
is list concatenation, a nil command the empty list.  `streamPodLogs` and
`streamMultiPodLogs` stand for the launched producer goroutines;
`waitForLogLine` / `waitForMultiPodLogLine` are the consumer-side "await the
next line" subscriptions; `childCmd` stands for any internal command returned
by a child widget or form library. -/
inductive Cmd where
  | quit
  | spinnerTick
  | connectCluster (path : String)
  | fetchNamespaces
  | fetchPods
  | fetchPodDetails (podName : String)
  | schedulePodRefresh
  | scheduleEventRefresh
  | fetchEvents
  | fetchDeployments
  | fetchDeploymentDetails (name : String)
  | fetchServices
  | fetchServiceDetails (name : String)
  | fetchMetrics
  | fetchContainers (podName : String)
  | fetchLogs (podName container : String) (tailLines : Int) (timestamps : Bool)
  | deletePod (name : String)
  | restartPod (name : String)
  | deleteDeployment (name : String)
  | restartDeployment (name : String)
  | scaleDeployment (name : String) (replicas : Int)
  | streamPodLogs (podName : String) (opts : LogOptions)
  | waitForLogLine
  | streamMultiPodLogs (podName container : String) (tailLines : Int)
  | waitForMultiPodLogLine (podName container : String)
  | retrySSHConnection
  | fetchCrictlContainers
  | fetchNodeInfo
  | fetchCrictlLogs
  | streamCrictlLogs (containerID : String) (tailLines : Int) (timestamps follow : Bool)
  | waitForCrictlLogLine
  | showNotification (text : String) (kind : NotificationKind)
  | formInit
  | childCmd
  deriving DecidableEq

/-! ## Generic list widget

`bubbles/list.Model` is an external widget; the core reads its selected item,
its items, and its filter state.  It is modelled at that interface boundary:
items, a cursor, and the two filter flags the core consults
(`SettingFilter()` and `FilterState() == Unfiltered`).  Key handling inside
the widget (cursor movement, filter editing) is outside the specified core
and is modelled as leaving the tracked fields unchanged. -/

structure ListModel (α : Type) where
  items : List α
  cursor : Nat
  settingFilter : Bool
  filterActive : Bool
  deriving DecidableEq

/-- `list.Model.SelectedItem()` — the item under the cursor, if any. -/
def ListModel.selectedItem (l : ListModel α) : Option α :=
  l.items.get? l.cursor

/-- A freshly constructed list (`list.New`) holding the given items. -/
def ListModel.mk0 (items : List α) : ListModel α :=
  ⟨items, 0, false, false⟩

/-- `updatePodList` and friends: replace the items, keeping the widget's
other state. -/
def ListModel.setItems (l : ListModel α) (items : List α) : ListModel α :=
  { l with items := items }

/-- External widget update: tracked fields unchanged, no command. -/
def ListModel.update (l : ListModel α) : ListModel α × List Cmd :=
  (l, [])

/-! ## Multi-pod log viewer (`multi_pod_log_viewer.go`) -/

/-- `MultiPodLogEntry`: a single log line tagged with its source. -/
structure MultiPodLogEntry where
  podName : String
  container : String
  line : String
  deriving DecidableEq

/-- The source key of an entry as rendered by `updateContent`:
`PodName + "/" + Container`. -/
def MultiPodLogEntry.sourceKey (e : MultiPodLogEntry) : String :=
  e.podName ++ "/" ++ e.container

/-- One element written to the viewport content by `updateContent`: a blank
separator line, a `==> source <==` header line, or a log line. -/
inductive RenderedLine where
  | sep
  | header (source : String)
  | logLine (text : String)
  deriving DecidableEq

/-- The body of `updateContent`'s loop: walk the entries keeping the last
rendered source (initially `""`), inserting a header whenever the entry's
source differs from the previous one (preceded by a blank separator except
before the first header). -/
def renderEntries (lastSource : String) : List MultiPodLogEntry → List RenderedLine
  | [] => []
  | e :: rest =>
      let source := e.sourceKey
      if source ≠ lastSource then
        (if lastSource ≠ "" then [RenderedLine.sep] else [])
          ++ [RenderedLine.header source, RenderedLine.logLine e.line]
          ++ renderEntries source rest
      else
        RenderedLine.logLine e.line :: renderEntries source rest

/-- `MultiPodLogViewer` restricted to the fields the core reads and writes. -/
structure MultiPodLogViewer where
  pods : List String
  entries : List MultiPodLogEntry
  following : Bool
  autoScroll : Bool
  totalLines : Nat
  lastSource : String
  ready : Bool
  deriving DecidableEq

/-- `NewMultiPodLogViewer`. -/
def MultiPodLogViewer.new : MultiPodLogViewer :=
  ⟨[], [], true, true, 0, "", false⟩

/-- `MultiPodLogViewer.updateContent` viewed as the list of rendered lines
(the string builder is modelled as the sequence of its writes; header
styling is a rendering artifact and is dropped). -/
def MultiPodLogViewer.updateContent (v : MultiPodLogViewer) : List RenderedLine :=
  renderEntries "" v.entries

/-- `strings.TrimSuffix(s, "\n")`: remove one trailing newline if present. -/
def trimNewlineSuffix (s : String) : String :=
  if s.endsWith "\n" then s.dropRight 1 else s

/-- `MultiPodLogViewer.AppendEntry`: trim a trailing newline, drop empty
lines, append the entry and bump the line count. -/
def MultiPodLogViewer.AppendEntry (v : MultiPodLogViewer) (entry : MultiPodLogEntry) :
    MultiPodLogViewer :=
  let line := trimNewlineSuffix entry.line
  if line = "" then v
  else
    { v with
      entries := v.entries ++ [{ entry with line := line }]
      totalLines := v.totalLines + 1 }

/-- `MultiPodLogViewer.SetPods`: initialise the viewer for a new session. -/
def MultiPodLogViewer.SetPods (v : MultiPodLogViewer) (pods : List String) :
    MultiPodLogViewer :=
  { v with pods := pods, entries := [], totalLines := 0, lastSource := "",
           following := true, autoScroll := true }

/-- `MultiPodLogViewer.Clear`. -/
def MultiPodLogViewer.Clear (v : MultiPodLogViewer) : MultiPodLogViewer :=
  { v with entries := [], totalLines := 0, lastSource := "", pods := [] }

/-- `MultiPodLogViewer.SetFollowing`. -/
def MultiPodLogViewer.SetFollowing (v : MultiPodLogViewer) (f : Bool) :
    MultiPodLogViewer :=
  { v with following := f, autoScroll := f }

/-- `MultiPodLogViewer.ToggleFollowing`; returns the new mode. -/
def MultiPodLogViewer.ToggleFollowing (v : MultiPodLogViewer) :
    MultiPodLogViewer × Bool :=
  let f := !v.following
  ({ v with following := f, autoScroll := f }, f)

/-- `MultiPodLogViewer.Update`: manual scroll keys disable follow mode,
`G` re-enables it, `g` disables it; everything else goes to the viewport
(external widget, tracked fields unchanged). -/
def MultiPodLogViewer.update (v : MultiPodLogViewer) (m : Msg) :
    MultiPodLogViewer × List Cmd :=
  match m with
  | Msg.key k =>
      if k = "up" ∨ k = "down" ∨ k = "pgup" ∨ k = "pgdown" ∨ k = "k" ∨ k = "j" then
        ({ v with autoScroll := false, following := false }, [])
      else if k = "G" then
        ({ v with autoScroll := true, following := true }, [])
      else if k = "g" then
        ({ v with autoScroll := false, following := false }, [])
      else (v, [])
  | _ => (v, [])

/-! ## The line channel shared by a producer and its consumer

`make(chan string, 100)`: a bounded queue of log lines under strict
single-producer/single-consumer discipline.  The producer goroutine runs
`StreamPodLogs` writing lines into the queue and, when it returns, discards
the returned error (`_ = a.k8sClient.StreamPodLogs(...)`) and closes the
queue (`defer close(lineChan)`); closing a Go channel carries no payload. -/

structure LineChan where
  buf : List String
  closed : Bool
  deriving DecidableEq

/-- The producer's termination (`defer close(lineChan)` around
`_ = StreamPodLogs(...)`): whatever error `StreamPodLogs` returned —
`context.Canceled`, a stream failure, or nil — is discarded and the
channel is closed. -/
def producerTerminate (_result : Option GoErr) (ch : LineChan) : LineChan :=
  { ch with closed := true }

/-- `waitForLogLine`: receive on the channel; a received line becomes
`logLineMsg`, a closed channel becomes `logStreamEndedMsg{}` (with its
zero-valued, i.e. nil, error).  `none` models a receive that is still
blocked (channel open and empty). -/
def waitForLogLineRecv (ch : LineChan) : Option (Msg × LineChan) :=
  match ch.buf with
  | line :: rest => some (Msg.logLine line, { ch with buf := rest })
  | [] => if ch.closed then some (Msg.logStreamEnded none, ch) else none

/-! ## Confirm dialog (`confirm_dialog.go`) -/

structure ConfirmDialog where
  action : ConfirmAction
  targetName : String
  visible : Bool
  width : Int
  confirmed : Bool
  formPresent : Bool
  formState : FormState
  deriving DecidableEq

def ConfirmDialog.new : ConfirmDialog :=
  ⟨ConfirmAction.none, "", false, 0, false, false, FormState.pending⟩

/-- `ConfirmDialog.Show`: arm the dialog for an action and target and build
a fresh form; returns the form's init command. -/
def ConfirmDialog.Show (d : ConfirmDialog) (action : ConfirmAction)
    (targetName : String) : ConfirmDialog × List Cmd :=
  ({ d with action := action, targetName := targetName, visible := true,
            confirmed := false, formPresent := true,
            formState := FormState.pending },
   [Cmd.formInit])

/-- `ConfirmDialog.Hide`. -/
def ConfirmDialog.Hide (d : ConfirmDialog) : ConfirmDialog :=
  { d with visible := false, action := ConfirmAction.none, targetName := "",
           formPresent := false }

/-- `ConfirmDialog.Update`: returns the dialog, the `confirmed` and
`cancelled` outcomes, and the command.  `y`/`Y` confirms and `n`/`N`/`esc`
cancels directly, bypassing the form; other messages are delegated to the
form. -/
def ConfirmDialog.update (d : ConfirmDialog) (m : Msg) :
    ConfirmDialog × Bool × Bool × List Cmd :=
  if ¬d.visible ∨ ¬d.formPresent then (d, false, false, [])
  else
    match m with
    | Msg.key k =>
        if k = "y" ∨ k = "Y" then (d, true, false, [])
        else if k = "n" ∨ k = "N" ∨ k = "esc" then (d, false, true, [])
        else
          let d := { d with formState := huhFormUpdate d.formState }
          if d.formState = FormState.completed then
            (d, d.confirmed, !d.confirmed, [Cmd.childCmd])
          else if d.formState = FormState.aborted then (d, false, true, [Cmd.childCmd])
          else (d, false, false, [Cmd.childCmd])
    | _ =>
        let d := { d with formState := huhFormUpdate d.formState }
        if d.formState = FormState.completed then
          (d, d.confirmed, !d.confirmed, [Cmd.childCmd])
        else if d.formState = FormState.aborted then (d, false, true, [Cmd.childCmd])
        else (d, false, false, [Cmd.childCmd])

/-! ## Scale dialog (`scale_dialog.go`) -/

structure ScaleDialog where
  deployName : String
  current : Int
  target : Int
  inputValue : String
  visible : Bool
  width : Int
  formPresent : Bool
  formState : FormState
  deriving DecidableEq

def ScaleDialog.new : ScaleDialog :=
  ⟨"", 0, 0, "", false, 0, false, FormState.pending⟩

/-- `ScaleDialog.Show`. -/
def ScaleDialog.Show (d : ScaleDialog) (deployName : String)
    (currentReplicas : Int) : ScaleDialog × List Cmd :=
  ({ d with deployName := deployName, current := currentReplicas,
            target := currentReplicas, visible := true,
            inputValue := toString currentReplicas, formPresent := true,
            formState := FormState.pending },
   [Cmd.formInit])

/-- `ScaleDialog.Hide`. -/
def ScaleDialog.Hide (d : ScaleDialog) : ScaleDialog :=
  { d with visible := false, deployName := "", formPresent := false }

/-- `ScaleDialog.Update`: `esc` cancels directly; other messages are
delegated to the form. -/
def ScaleDialog.update (d : ScaleDialog) (m : Msg) :
    ScaleDialog × Bool × Bool × List Cmd :=
  if ¬d.visible ∨ ¬d.formPresent then (d, false, false, [])
  else
    match m with
    | Msg.key k =>
        if k = "esc" then (d, false, true, [])
        else
          let d := { d with formState := huhFormUpdate d.formState }
          if d.formState = FormState.completed then (d, true, false, [Cmd.childCmd])
          else if d.formState = FormState.aborted then (d, false, true, [Cmd.childCmd])
          else (d, false, false, [Cmd.childCmd])
    | _ =>
        let d := { d with formState := huhFormUpdate d.formState }
        if d.formState = FormState.completed then (d, true, false, [Cmd.childCmd])
        else if d.formState = FormState.aborted then (d, false, true, [Cmd.childCmd])
        else (d, false, false, [Cmd.childCmd])

/-! ## Container selector (`container_selector.go`) -/

structure ContainerSelector where
  containers : List String
  selected : String
  visible : Bool
  width : Int
  formPresent : Bool
  formState : FormState
  deriving DecidableEq

def ContainerSelector.new : ContainerSelector :=
  ⟨[], "", false, 0, false, FormState.pending⟩

/-- `ContainerSelector.Show`: defaults the selection to the first container
when none is set. -/
def ContainerSelector.Show (c : ContainerSelector) (containers : List String)
    (currentContainer : String) : ContainerSelector × List Cmd :=
  let selected :=
    if currentContainer = "" ∧ containers ≠ [] then containers.headD ""
    else currentContainer
  ({ c with containers := containers, visible := true, selected := selected,
            formPresent := true, formState := FormState.pending },
   [Cmd.formInit])

/-- `ContainerSelector.Hide`. -/
def ContainerSelector.Hide (c : ContainerSelector) : ContainerSelector :=
  { c with visible := false, formPresent := false }

/-- `ContainerSelector.Update`: `esc`/`c` cancels directly; other messages
are delegated to the form. -/
def ContainerSelector.update (c : ContainerSelector) (m : Msg) :
    ContainerSelector × Bool × Bool × List Cmd :=
  if ¬c.visible ∨ ¬c.formPresent then (c, false, false, [])
  else
    match m with
    | Msg.key k =>
        if k = "esc" ∨ k = "c" then (c, false, true, [])
        else
          let c := { c with formState := huhFormUpdate c.formState }
          if c.formState = FormState.completed then (c, true, false, [Cmd.childCmd])
          else if c.formState = FormState.aborted then (c, false, true, [Cmd.childCmd])
          else (c, false, false, [Cmd.childCmd])
    | _ =>
        let c := { c with formState := huhFormUpdate c.formState }
        if c.formState = FormState.completed then (c, true, false, [Cmd.childCmd])
        else if c.formState = FormState.aborted then (c, false, true, [Cmd.childCmd])
        else (c, false, false, [Cmd.childCmd])

/-! ## Passphrase input (`passphrase_input.go`) -/

structure PassphraseInput where
  visible : Bool
  hostName : String
  width : Int
  passphrase : String
  formPresent : Bool
  formState : FormState
  deriving DecidableEq

def PassphraseInput.new : PassphraseInput :=
  ⟨false, "", 0, "", false, FormState.pending⟩

/-- `PassphraseInput.Show`. -/
def PassphraseInput.Show (p : PassphraseInput) (hostName : String) :
    PassphraseInput × List Cmd :=
  ({ p with visible := true, hostName := hostName, passphrase := "",
            formPresent := true, formState := FormState.pending },
   [Cmd.formInit])

/-- `PassphraseInput.Hide`. -/
def PassphraseInput.Hide (p : PassphraseInput) : PassphraseInput :=
  { p with visible := false, formPresent := false, passphrase := "" }

/-- `PassphraseInput.Update`: returns the input, the passphrase, the
`submitted` and `cancelled` outcomes, and the command.  `esc` cancels
directly; other messages are delegated to the form. -/
def PassphraseInput.update (p : PassphraseInput) (m : Msg) :
    PassphraseInput × String × Bool × Bool × List Cmd :=
  if ¬p.formPresent then (p, "", false, false, [])
  else
    match m with
    | Msg.key k =>
        if k = "esc" then (p, "", false, true, [])
        else
          let p := { p with formState := huhFormUpdate p.formState }
          if p.formState = FormState.completed then
            (p, p.passphrase, true, false, [Cmd.childCmd])
          else if p.formState = FormState.aborted then
            (p, "", false, true, [Cmd.childCmd])
          else (p, "", false, false, [Cmd.childCmd])
    | _ =>
        let p := { p with formState := huhFormUpdate p.formState }
        if p.formState = FormState.completed then
          (p, p.passphrase, true, false, [Cmd.childCmd])
        else if p.formState = FormState.aborted then
          (p, "", false, true, [Cmd.childCmd])
        else (p, "", false, false, [Cmd.childCmd])

/-! ## Components whose source files are absent from the snapshot -/

/-- Modelled from the spec: the help screen source file is not in the
snapshot; per §4.6 it is a modal overlay with a visibility flag toggled by
the caller (`Toggle`/`Hide`/`IsVisible` are the only operations the app
invokes on it). -/
structure HelpScreen where
  visible : Bool
  deriving DecidableEq

def HelpScreen.Toggle (h : HelpScreen) : HelpScreen := ⟨!h.visible⟩

def HelpScreen.Hide (_h : HelpScreen) : HelpScreen := ⟨false⟩

/-- Modelled from the spec: the search input source file is not in the
snapshot; per §4.6 it is a modal overlay capturing keys exclusively, with
search-as-you-type (`Show`, `Hide`, `Update → (query, submitted, cancelled,
cmd)`, `SetMatchCount`, `NextMatch`, `PrevMatch`). -/
structure SearchInput where
  visible : Bool
  query : String
  deriving DecidableEq

def SearchInput.Show (s : SearchInput) : SearchInput :=
  { s with visible := true }

def SearchInput.Hide (s : SearchInput) : SearchInput :=
  { s with visible := false }

/-- Modelled from the spec: search-as-you-type; `esc` cancels, `enter`
submits, a printable key extends the query. -/
def SearchInput.update (s : SearchInput) (m : Msg) :
    SearchInput × String × Bool × Bool × List Cmd :=
  match m with
  | Msg.key k =>
      if k = "esc" then (s, "", false, true, [])
      else if k = "enter" then (s, s.query, true, false, [])
      else
        let s := { s with query := s.query ++ k }
        (s, s.query, false, false, [])
  | _ => (s, s.query, false, false, [])

/-- The sentinel value of the "All Pods" option
(`allPodsValue` in `pod_multi_selector.go`). -/
def allPodsValue : String := "__all_pods__"

/-- `PodMultiSelector` (`pod_multi_selector.go`): a multi-select dialog for
choosing multiple pods, restricted to the fields the core reads and
writes. -/
structure PodMultiSelector where
  visible : Bool
  width : Int
  selected : List String
  allPods : List String
  formPresent : Bool
  formState : FormState
  deriving DecidableEq

/-- `NewPodMultiSelector`. -/
def PodMultiSelector.new : PodMultiSelector :=
  ⟨false, 0, [], [], false, FormState.pending⟩

/-- `PodMultiSelector.Show`: reset the selection, record every pod name for
the "All Pods" expansion and build a fresh form; returns the form's init
command. -/
def PodMultiSelector.Show (s : PodMultiSelector) (pods : List Pod) :
    PodMultiSelector × List Cmd :=
  ({ s with visible := true, selected := [],
            allPods := pods.map Pod.name, formPresent := true,
            formState := FormState.pending },
   [Cmd.formInit])

/-- `PodMultiSelector.Hide`. -/
def PodMultiSelector.Hide (s : PodMultiSelector) : PodMultiSelector :=
  { s with visible := false, formPresent := false }

/-- `PodMultiSelector.SelectedPods`: the selected pod names, expanded to
all pods when the "All Pods" sentinel is among them. -/
def PodMultiSelector.SelectedPods (s : PodMultiSelector) : List String :=
  if s.selected.any (fun v => v = allPodsValue) then s.allPods
  else s.selected

/-- `PodMultiSelector.Update`: `esc` cancels directly; other messages are
delegated to the form. -/
def PodMultiSelector.update (s : PodMultiSelector) (m : Msg) :
    PodMultiSelector × Bool × Bool × List Cmd :=
  if ¬s.visible ∨ ¬s.formPresent then (s, false, false, [])
  else
    match m with
    | Msg.key k =>
        if k = "esc" then (s, false, true, [])
        else
          let s := { s with formState := huhFormUpdate s.formState }
          if s.formState = FormState.completed then (s, true, false, [Cmd.childCmd])
          else if s.formState = FormState.aborted then (s, false, true, [Cmd.childCmd])
          else (s, false, false, [Cmd.childCmd])
    | _ =>
        let s := { s with formState := huhFormUpdate s.formState }
        if s.formState = FormState.completed then (s, true, false, [Cmd.childCmd])
        else if s.formState = FormState.aborted then (s, false, true, [Cmd.childCmd])
        else (s, false, false, [Cmd.childCmd])

/-- Modelled from the spec: the single-source log viewer source file is not
in the snapshot.  The app reads and writes: the pod/namespace/containers it
displays, the active container, the tail-line count and timestamp toggle
used for fetches, the follow flag, the search query, and the buffered
lines. -/
structure LogViewer where
  podName : String
  nspace : String
  containers : List String
  container : String
  tailLines : Int
  timestamps : Bool
  following : Bool
  searchQuery : String
  lines : List String
  deriving DecidableEq

/-- Modelled from the spec: a fresh viewer tails a bounded history
(e.g. 100 lines) with follow off. -/
def LogViewer.new : LogViewer :=
  ⟨"", "", [], "", 100, false, false, "", []⟩

/-- Modelled from the spec: bind the viewer to a pod and its containers,
defaulting the active container to the first. -/
def LogViewer.SetPod (v : LogViewer) (podName nspace : String)
    (containers : List String) : LogViewer :=
  { v with podName := podName, nspace := nspace, containers := containers,
           container := containers.headD "", lines := [] }

def LogViewer.SetContainer (v : LogViewer) (c : String) : LogViewer :=
  { v with container := c }

def LogViewer.SetLogs (v : LogViewer) (logs : List String) : LogViewer :=
  { v with lines := logs }

def LogViewer.AppendLog (v : LogViewer) (line : String) : LogViewer :=
  { v with lines := v.lines ++ [line] }

def LogViewer.ToggleFollowing (v : LogViewer) : LogViewer × Bool :=
  let f := !v.following
  ({ v with following := f }, f)

def LogViewer.ToggleTimestamps (v : LogViewer) : LogViewer :=
  { v with timestamps := !v.timestamps }

/-- Modelled from the spec: leaving the logs view clears the viewer. -/
def LogViewer.Clear (v : LogViewer) : LogViewer :=
  { v with lines := [], searchQuery := "", following := false }

def LogViewer.SetSearchQuery (v : LogViewer) (q : String) : LogViewer :=
  { v with searchQuery := q }

/-- External-widget part of the viewer (viewport scrolling): tracked fields
unchanged. -/
def LogViewer.update (v : LogViewer) : LogViewer × List Cmd := (v, [])

/-- Modelled from the spec: the crictl log viewer mirrors the single-source
log viewer for remote containers (source file absent from the snapshot). -/
structure CrictlLogViewer where
  containerID : String
  containerName : String
  nodeName : String
  tailLines : Int
  timestamps : Bool
  following : Bool
  searchQuery : String
  lines : List String
  deriving DecidableEq

def CrictlLogViewer.new : CrictlLogViewer :=
  ⟨"", "", "", 100, false, false, "", []⟩

def CrictlLogViewer.SetContainer (v : CrictlLogViewer) (id name node : String) :
    CrictlLogViewer :=
  { v with containerID := id, containerName := name, nodeName := node,
           lines := [] }

def CrictlLogViewer.SetLogs (v : CrictlLogViewer) (logs : List String) :
    CrictlLogViewer :=
  { v with lines := logs }

def CrictlLogViewer.AppendLog (v : CrictlLogViewer) (line : String) :
    CrictlLogViewer :=
  { v with lines := v.lines ++ [line] }

def CrictlLogViewer.ToggleFollowing (v : CrictlLogViewer) : CrictlLogViewer × Bool :=
  let f := !v.following
  ({ v with following := f }, f)

def CrictlLogViewer.ToggleTimestamps (v : CrictlLogViewer) : CrictlLogViewer :=
  { v with timestamps := !v.timestamps }

def CrictlLogViewer.Clear (v : CrictlLogViewer) : CrictlLogViewer :=
  { v with lines := [], searchQuery := "", following := false }

def CrictlLogViewer.SetSearchQuery (v : CrictlLogViewer) (q : String) :
    CrictlLogViewer :=
  { v with searchQuery := q }

def CrictlLogViewer.update (v : CrictlLogViewer) : CrictlLogViewer × List Cmd :=
  (v, [])

/-- Modelled from the spec: the event viewer source file is not in the
snapshot; the app reads its follow flag and toggles its filters. -/
structure EventViewer where
  following : Bool
  warningsOnly : Bool
  kindFilter : Nat
  events : List String
  deriving DecidableEq

def EventViewer.new : EventViewer := ⟨true, false, 0, []⟩

def EventViewer.ToggleFollowing (v : EventViewer) : EventViewer :=
  { v with following := !v.following }

def EventViewer.ToggleWarningsOnly (v : EventViewer) : EventViewer :=
  { v with warningsOnly := !v.warningsOnly }

def EventViewer.CycleKindFilter (v : EventViewer) : EventViewer :=
  { v with kindFilter := v.kindFilter + 1 }

def EventViewer.SetEvents (v : EventViewer) (es : List String) : EventViewer :=
  { v with events := es }

def EventViewer.update (v : EventViewer) : EventViewer × List Cmd := (v, [])

/-- Modelled from the spec: detail panes hold the fetched entity; the app
only stores into them (and reads the deployment back for the scale
dialog). -/
structure PodDetailsModel where
  hasPod : Bool
  deriving DecidableEq

structure DeploymentDetailsModel where
  deployment : Option Deployment
  deriving DecidableEq

structure ServiceDetailsModel where
  service : Option Service
  deriving DecidableEq

/-- The toast notification (`notification.go`, not a modal): `Show` replaces
the text and returns the expiry timer command; `Hide` clears it. -/
structure Notification where
  visible : Bool
  text : String
  kind : NotificationKind
  deriving DecidableEq

def Notification.new : Notification := ⟨false, "", NotificationKind.info⟩

def Notification.Show (n : Notification) (text : String) (kind : NotificationKind) :
    Notification × List Cmd :=
  ({ n with visible := true, text := text, kind := kind },
   [Cmd.showNotification text kind])

def Notification.Hide (n : Notification) : Notification :=
  { n with visible := false }

/-! ## The application state (`App` in `app.go`)

External handles are modelled at their interface boundary: `k8sClient` by
the flag `hasK8sClient` plus `currentNamespace` (the client's
`SetNamespace`/`CurrentNamespace` state), `sshClient` by `hasSSHClient` plus
the stored passphrase, the metrics client by `metricsClientPresent`.
A `context.CancelFunc` is a ghost id; calling it records the id in
`cancelledCtxs`.  A line channel is tracked by presence
(`logChanPresent`, the key set of `multiPodLineChanMap`). -/

structure App where
  width : Int
  height : Int
  contentWidth : Int
  sidebarWidth : Int
  showSidebar : Bool
  ready : Bool
  config : Config
  selectedConfig : Option KubeConfig
  viewState : ViewState
  kubeConfigList : ListModel KubeConfig
  namespaceList : ListModel String
  podList : ListModel Pod
  podDetails : PodDetailsModel
  selectedPodName : String
  pods : Option (List Pod)
  hasK8sClient : Bool
  currentNamespace : String
  clusterInfo : Option ClusterInfo
  connectionStatus : ConnectionStatus
  err : Option GoErr
  loading : Bool
  podCount : Nat
  namespaceCount : Nat
  confirmDialog : ConfirmDialog
  notification : Notification
  logViewer : LogViewer
  logSourceView : ViewState
  containerSelector : ContainerSelector
  logStreamCancel : Option Nat
  logStreamActive : Bool
  logChanPresent : Bool
  sshHostList : ListModel SSHHost
  hasSSHClient : Bool
  sshPassphrase : String
  selectedSSHHost : Option SSHHost
  crictlContainers : Option (List CrictlContainer)
  crictlContainerList : ListModel CrictlContainer
  nodeInfoPresent : Bool
  passphraseInput : PassphraseInput
  crictlLogViewer : CrictlLogViewer
  selectedCrictlContainer : Option CrictlContainer
  crictlLogStreamCancel : Option Nat
  crictlLogStreamActive : Bool
  crictlChanPresent : Bool
  helpScreen : HelpScreen
  searchInput : SearchInput
  deploymentList : ListModel Deployment
  deploymentCount : Nat
  deploymentDetails : DeploymentDetailsModel
  selectedDeployName : String
  serviceList : ListModel Service
  serviceCount : Nat
  serviceDetails : ServiceDetailsModel
  selectedServiceName : String
  eventViewer : EventViewer
  metricsClientPresent : Bool
  metricsAvailable : Bool
  metricsEnabled : Bool
  podMetrics : Option Unit
  scaleDialog : ScaleDialog
  podMultiSelector : PodMultiSelector
  multiPodLogViewer : MultiPodLogViewer
  multiPodStreamCancel : Option Nat
  multiPodStreamCtx : Option Nat
  multiPodStreamActive : Bool
  multiPodActiveStreams : Int
  multiPodLineChanMap : Option (List String)
  multiPodContainerMap : Option (List (String × String))
  nextCtxId : Nat
  cancelledCtxs : List Nat
  deriving DecidableEq

/-- `NewApp`: the zero-valued application with defaults; with exactly one
kubeconfig it is auto-selected. -/
def newApp (cfg : Config) : App where
  width := 0
  height := 0
  contentWidth := 0
  sidebarWidth := 0
  showSidebar := false
  ready := false
  config := cfg
  selectedConfig := if cfg.kubeConfigs.length = 1 then cfg.kubeConfigs.head? else none
  viewState := ViewState.kubeConfigSelect
  kubeConfigList := ListModel.mk0 []
  namespaceList := ListModel.mk0 []
  podList := ListModel.mk0 []
  podDetails := ⟨false⟩
  selectedPodName := ""
  pods := none
  hasK8sClient := false
  currentNamespace := ""
  clusterInfo := none
  connectionStatus := ConnectionStatus.disconnected
  err := none
  loading := false
  podCount := 0
  namespaceCount := 0
  confirmDialog := ConfirmDialog.new
  notification := Notification.new
  logViewer := LogViewer.new
  logSourceView := ViewState.kubeConfigSelect
  containerSelector := ContainerSelector.new
  logStreamCancel := none
  logStreamActive := false
  logChanPresent := false
  sshHostList := ListModel.mk0 []
  hasSSHClient := false
  sshPassphrase := ""
  selectedSSHHost := none
  crictlContainers := none
  crictlContainerList := ListModel.mk0 []
  nodeInfoPresent := false
  passphraseInput := PassphraseInput.new
  crictlLogViewer := CrictlLogViewer.new
  selectedCrictlContainer := none
  crictlLogStreamCancel := none
  crictlLogStreamActive := false
  crictlChanPresent := false
  helpScreen := ⟨false⟩
  searchInput := ⟨false, ""⟩
  deploymentList := ListModel.mk0 []
  deploymentCount := 0
  deploymentDetails := ⟨none⟩
  selectedDeployName := ""
  serviceList := ListModel.mk0 []
  serviceCount := 0
  serviceDetails := ⟨none⟩
  selectedServiceName := ""
  eventViewer := EventViewer.new
  metricsClientPresent := false
  metricsAvailable := false
  metricsEnabled := false
  podMetrics := none
  scaleDialog := ScaleDialog.new
  podMultiSelector := PodMultiSelector.new
  multiPodLogViewer := MultiPodLogViewer.new
  multiPodStreamCancel := none
  multiPodStreamCtx := none
  multiPodStreamActive := false
  multiPodActiveStreams := 0
  multiPodLineChanMap := none
  multiPodContainerMap := none
  nextCtxId := 0
  cancelledCtxs := []

/-- `App.Init`: with an auto-selected kubeconfig, go straight to the
connecting view and launch the connect task (after the spinner tick). -/
def App.Init (a : App) : App × List Cmd :=
  match a.selectedConfig with
  | some cfg =>
      ({ a with viewState := ViewState.connecting,
                connectionStatus := ConnectionStatus.connecting },
       [Cmd.spinnerTick, Cmd.connectCluster cfg.path])
  | none => (a, [Cmd.spinnerTick])

/-! ## Single-source streaming engine -/

/-- `stopLogStream`: cancel and drop the stream scope, mark inactive. -/
def App.stopLogStream (a : App) : App :=
  let a :=
    match a.logStreamCancel with
    | some c =>
        { a with cancelledCtxs := c :: a.cancelledCtxs, logStreamCancel := none }
    | none => a
  { a with logStreamActive := false }

/-- `startLogStreaming`: stop any existing stream, open a fresh cancellation
scope and line queue, launch the producer with `TailLines: 0` (no re-fetch
of historical tail when streaming) and return the "await next line"
subscription. -/
def App.startLogStreaming (a : App) : App × List Cmd :=
  if ¬a.hasK8sClient then (a, [])
  else
    let a := a.stopLogStream
    let ctx := a.nextCtxId
    let a := { a with nextCtxId := ctx + 1, logStreamCancel := some ctx,
                      logStreamActive := true, logChanPresent := true }
    let opts : LogOptions :=
      ⟨a.logViewer.container, 0, a.logViewer.timestamps, true⟩
    (a, [Cmd.streamPodLogs a.logViewer.podName opts, Cmd.waitForLogLine])

/-- `handleLogLine`: outside the logs view the line is dropped and the
consumer chain is not re-armed; otherwise append and, while the stream is
active, await the next line. -/
def App.handleLogLine (a : App) (line : String) : App × List Cmd :=
  if a.viewState ≠ ViewState.logs then (a, [])
  else
    let a := { a with logViewer := a.logViewer.AppendLog line }
    if a.logStreamActive ∧ a.logChanPresent then (a, [Cmd.waitForLogLine])
    else (a, [])

/-- `handleLogStreamEnded`: a cancelled end stops silently; otherwise,
with follow mode on and the logs view current, restart the stream; a failed
end with follow off surfaces an informational notification. -/
def App.handleLogStreamEnded (a : App) (err : Option GoErr) : App × List Cmd :=
  let a := { a with logStreamActive := false }
  if err = some GoErr.canceled then (a, [])
  else if a.logViewer.following ∧ a.viewState = ViewState.logs then
    a.startLogStreaming
  else if err ≠ none then
    let (n, cmds) := a.notification.Show "Log stream ended" NotificationKind.info
    ({ a with notification := n }, cmds)
  else (a, [])

/-! ## Crictl streaming engine -/

/-- `stopCrictlLogStream`. -/
def App.stopCrictlLogStream (a : App) : App :=
  let a :=
    match a.crictlLogStreamCancel with
    | some c =>
        { a with cancelledCtxs := c :: a.cancelledCtxs,
                 crictlLogStreamCancel := none }
    | none => a
  { a with crictlLogStreamActive := false }

/-- `startCrictlLogStreaming`. -/
def App.startCrictlLogStreaming (a : App) : App × List Cmd :=
  if ¬a.hasSSHClient ∨ a.selectedCrictlContainer = none then (a, [])
  else
    let a := a.stopCrictlLogStream
    let ctx := a.nextCtxId
    let a := { a with nextCtxId := ctx + 1, crictlLogStreamCancel := some ctx,
                      crictlLogStreamActive := true, crictlChanPresent := true }
    let cid := (a.selectedCrictlContainer.map CrictlContainer.containerID).getD ""
    (a, [Cmd.streamCrictlLogs cid 0 a.crictlLogViewer.timestamps true,
         Cmd.waitForCrictlLogLine])

/-- `handleCrictlLogLine`. -/
def App.handleCrictlLogLine (a : App) (line : String) : App × List Cmd :=
  if a.viewState ≠ ViewState.crictlLogs then (a, [])
  else
    let a := { a with crictlLogViewer := a.crictlLogViewer.AppendLog line }
    if a.crictlLogStreamActive ∧ a.crictlChanPresent then
      (a, [Cmd.waitForCrictlLogLine])
    else (a, [])

/-- `handleCrictlLogStreamEnded`. -/
def App.handleCrictlLogStreamEnded (a : App) (err : Option GoErr) :
    App × List Cmd :=
  let a := { a with crictlLogStreamActive := false }
  if err = some GoErr.canceled then (a, [])
  else if a.crictlLogViewer.following ∧ a.viewState = ViewState.crictlLogs then
    a.startCrictlLogStreaming
  else if err ≠ none then
    let (n, cmds) :=
      a.notification.Show "Crictl log stream ended" NotificationKind.info
    ({ a with notification := n }, cmds)
  else (a, [])

/-! ## Multi-source streaming engine -/

/-- Go map assignment `m[k] = v` (later writes shadow earlier ones). -/
def mapInsert (m : List (String × String)) (k v : String) :
    List (String × String) :=
  (k, v) :: m

/-- `stopMultiPodStreams`: cancel the shared scope and reset the whole
session: inactive, zero active streams, maps dropped. -/
def App.stopMultiPodStreams (a : App) : App :=
  let a :=
    match a.multiPodStreamCancel with
    | some c =>
        { a with cancelledCtxs := c :: a.cancelledCtxs,
                 multiPodStreamCancel := none }
    | none => a
  { a with multiPodStreamCtx := none, multiPodStreamActive := false,
           multiPodActiveStreams := 0, multiPodLineChanMap := none,
           multiPodContainerMap := none }

/-- `startSinglePodStream`: register the pod's line queue, launch the
producer with a 100-line historical tail on the initial start
(`withHistory`) and none on restart, and return the per-pod "await next
line" subscription. -/
def App.startSinglePodStream (a : App) (_ctx : Nat)
    (_nspace podName container : String) (withHistory : Bool) :
    App × List Cmd :=
  let chans := podName :: ((a.multiPodLineChanMap.getD []).filter (· ≠ podName))
  let a := { a with multiPodLineChanMap := some chans }
  let tailLines : Int := if withHistory then 100 else 0
  (a, [Cmd.streamMultiPodLogs podName container tailLines,
       Cmd.waitForMultiPodLogLine podName container])

/-- The pod→first-container map built at the top of
`startMultiPodStreaming` from the pod list's items. -/
def buildPodContainerMap (items : List Pod) (podNames : List String) :
    List (String × String) :=
  items.foldl
    (fun m pi =>
      podNames.foldl
        (fun m name =>
          if pi.name = name ∧ pi.containers ≠ [] then
            mapInsert m name (pi.containers.headD "")
          else m)
        m)
    []

/-- One iteration of `startMultiPodStreaming`'s loop over the selected pod
names: record the pod's first container and start its stream with
history. -/
def App.startMultiPodStep (ctx : Nat) (pcm : List (String × String))
    (acc : App × List Cmd) (podName : String) : App × List Cmd :=
  let a := acc.1
  let container := ((pcm.lookup podName).getD "")
  let cmap := some (mapInsert (a.multiPodContainerMap.getD []) podName container)
  let a := { a with multiPodContainerMap := cmap }
  let r := a.startSinglePodStream ctx a.currentNamespace podName container true
  (r.1, acc.2 ++ r.2)

/-- `startMultiPodStreaming`: stop any previous session, set up the viewer
and the shared cancellation scope, then start one stream per pod with
history. -/
def App.startMultiPodStreaming (a : App) (podNames : List String) :
    App × List Cmd :=
  if ¬a.hasK8sClient then (a, [])
  else
    let a := a.stopMultiPodStreams
    let pcm := buildPodContainerMap a.podList.items podNames
    let viewer := (a.multiPodLogViewer.SetPods podNames).SetFollowing true
    let a :=
      { a with multiPodLogViewer := viewer, viewState := ViewState.multiPodLogs }
    let ctx := a.nextCtxId
    let a :=
      { a with nextCtxId := ctx + 1, multiPodStreamCancel := some ctx,
               multiPodStreamCtx := some ctx, multiPodStreamActive := true,
               multiPodActiveStreams := (podNames.length : Int),
               multiPodLineChanMap := some [],
               multiPodContainerMap := some [] }
    podNames.foldl (App.startMultiPodStep ctx pcm) (a, [])

/-- `handleMultiPodLogLine`. -/
def App.handleMultiPodLogLine (a : App) (podName container line : String) :
    App × List Cmd :=
  if a.viewState ≠ ViewState.multiPodLogs then (a, [])
  else
    let viewer := a.multiPodLogViewer.AppendEntry ⟨podName, container, line⟩
    let a := { a with multiPodLogViewer := viewer }
    if podName ∈ a.multiPodLineChanMap.getD [] then
      (a, [Cmd.waitForMultiPodLogLine podName container])
    else (a, [])

/-- `handleMultiPodLogStreamEnded`: drop the pod's queue; a cancelled end
only decrements the active-stream count; otherwise, while still in the
multi-pod view with an active session and a live shared scope, restart the
pod's stream with no additional tail; otherwise decrement and, at zero,
mark the session inactive. -/
def App.handleMultiPodLogStreamEnded (a : App) (podName : String)
    (err : Option GoErr) : App × List Cmd :=
  let chans := a.multiPodLineChanMap.map (fun m => m.filter (· ≠ podName))
  let a := { a with multiPodLineChanMap := chans }
  if err = some GoErr.canceled then
    ({ a with multiPodActiveStreams := a.multiPodActiveStreams - 1 }, [])
  else
    match a.multiPodStreamCtx with
    | some ctx =>
        if a.viewState = ViewState.multiPodLogs ∧ a.multiPodStreamActive then
          let container := ((a.multiPodContainerMap.getD []).lookup podName).getD ""
          a.startSinglePodStream ctx a.currentNamespace podName container false
        else
          let n := a.multiPodActiveStreams - 1
          let active := if n ≤ 0 then false else a.multiPodStreamActive
          ({ a with multiPodActiveStreams := n, multiPodStreamActive := active }, [])
    | none =>
        let n := a.multiPodActiveStreams - 1
        let active := if n ≤ 0 then false else a.multiPodStreamActive
        ({ a with multiPodActiveStreams := n, multiPodStreamActive := active }, [])

/-! ## Result handlers -/

/-- `handleConnectResult`.  The metrics-server probe performed inline on
success is external I/O; its outcome is the `metricsOk` component of the
message. -/
def App.handleConnectResult (a : App) (err : Option GoErr) (info : ClusterInfo)
    (metricsOk : Bool) : App × List Cmd :=
  if err ≠ none then
    ({ a with err := err, connectionStatus := ConnectionStatus.error,
              viewState := ViewState.main }, [])
  else
    let a :=
      { a with hasK8sClient := true, clusterInfo := some info,
               connectionStatus := ConnectionStatus.connected,
               viewState := ViewState.namespaces, err := none, loading := true }
    let a :=
      if a.selectedConfig.isSome ∧ metricsOk then
        { a with metricsClientPresent := true, metricsAvailable := true }
      else a
    (a, [Cmd.fetchNamespaces])

/-- `handleNamespacesResult`. -/
def App.handleNamespacesResult (a : App) (namespaces : List String)
    (err : Option GoErr) : App × List Cmd :=
  let a := { a with loading := false }
  if err ≠ none then ({ a with err := err }, [])
  else
    ({ a with namespaceCount := namespaces.length,
              namespaceList := a.namespaceList.setItems namespaces,
              err := none }, [])

/-- `handlePodsResult`: the list widget is not updated while a filter is
being edited or applied. -/
def App.handlePodsResult (a : App) (pods : List Pod) (err : Option GoErr) :
    App × List Cmd :=
  let a := { a with loading := false }
  if err ≠ none then ({ a with err := err }, [])
  else
    let a := { a with podCount := pods.length, pods := some pods }
    let a :=
      if ¬a.podList.settingFilter ∧ ¬a.podList.filterActive then
        { a with podList := a.podList.setItems pods }
      else a
    ({ a with err := none }, [])

/-- `handlePodDetailsResult`. -/
def App.handlePodDetailsResult (a : App) (err : Option GoErr) : App × List Cmd :=
  let a := { a with loading := false }
  if err ≠ none then ({ a with err := err }, [])
  else ({ a with podDetails := ⟨true⟩, err := none }, [])

/-- `handlePodDeleteResult`. -/
def App.handlePodDeleteResult (a : App) (podName : String) (err : Option GoErr) :
    App × List Cmd :=
  if err ≠ none then
    let (n, cmds) :=
      a.notification.Show "Failed to delete pod" NotificationKind.error
    ({ a with notification := n }, cmds)
  else
    let (n, cmds) :=
      a.notification.Show ("Pod " ++ podName ++ " deleted successfully")
        NotificationKind.success
    ({ a with notification := n, viewState := ViewState.pods,
              selectedPodName := "" },
     cmds ++ [Cmd.fetchPods, Cmd.schedulePodRefresh])

/-- `handlePodRestartResult`. -/
def App.handlePodRestartResult (a : App) (podName : String) (err : Option GoErr) :
    App × List Cmd :=
  if err ≠ none then
    let (n, cmds) :=
      a.notification.Show "Failed to restart pod" NotificationKind.error
    ({ a with notification := n }, cmds)
  else
    let (n, cmds) :=
      a.notification.Show ("Pod " ++ podName ++ " restarting")
        NotificationKind.success
    ({ a with notification := n, viewState := ViewState.pods,
              selectedPodName := "" },
     cmds ++ [Cmd.fetchPods, Cmd.schedulePodRefresh])

/-- `handleDeploymentsResult`. -/
def App.handleDeploymentsResult (a : App) (deployments : List Deployment)
    (err : Option GoErr) : App × List Cmd :=
  let a := { a with loading := false }
  if err ≠ none then ({ a with err := err }, [])
  else
    ({ a with deploymentCount := deployments.length,
              deploymentList := a.deploymentList.setItems deployments,
              err := none }, [])

/-- `handleDeploymentDetailsResult`. -/
def App.handleDeploymentDetailsResult (a : App) (deployment : Option Deployment)
    (err : Option GoErr) : App × List Cmd :=
  let a := { a with loading := false }
  if err ≠ none then ({ a with err := err }, [])
  else ({ a with deploymentDetails := ⟨deployment⟩, err := none }, [])

/-- `handleDeploymentScaleResult`. -/
def App.handleDeploymentScaleResult (a : App) (name : String) (_replicas : Int)
    (err : Option GoErr) : App × List Cmd :=
  if err ≠ none then
    let (n, cmds) :=
      a.notification.Show "Failed to scale deployment" NotificationKind.error
    ({ a with notification := n }, cmds)
  else
    let (n, cmds) :=
      a.notification.Show ("Deployment " ++ name ++ " scaled")
        NotificationKind.success
    ({ a with notification := n }, cmds ++ [Cmd.fetchDeployments])

/-- `handleDeploymentRestartResult`. -/
def App.handleDeploymentRestartResult (a : App) (name : String)
    (err : Option GoErr) : App × List Cmd :=
  if err ≠ none then
    let (n, cmds) :=
      a.notification.Show "Failed to restart deployment" NotificationKind.error
    ({ a with notification := n }, cmds)
  else
    let (n, cmds) :=
      a.notification.Show ("Deployment " ++ name ++ " restarting")
        NotificationKind.success
    ({ a with notification := n, viewState := ViewState.deployments,
              selectedDeployName := "" },
     cmds ++ [Cmd.fetchDeployments])

/-- `handleDeploymentDeleteResult`. -/
def App.handleDeploymentDeleteResult (a : App) (name : String)
    (err : Option GoErr) : App × List Cmd :=
  if err ≠ none then
    let (n, cmds) :=
      a.notification.Show "Failed to delete deployment" NotificationKind.error
    ({ a with notification := n }, cmds)
  else
    let (n, cmds) :=
      a.notification.Show ("Deployment " ++ name ++ " deleted")
        NotificationKind.success
    ({ a with notification := n, viewState := ViewState.deployments,
              selectedDeployName := "" },
     cmds ++ [Cmd.fetchDeployments])

/-- `handleServicesResult`. -/
def App.handleServicesResult (a : App) (services : List Service)
    (err : Option GoErr) : App × List Cmd :=
  let a := { a with loading := false }
  if err ≠ none then ({ a with err := err }, [])
  else
    ({ a with serviceCount := services.length,
              serviceList := a.serviceList.setItems services,
              err := none }, [])

/-- `handleServiceDetailsResult`. -/
def App.handleServiceDetailsResult (a : App) (service : Option Service)
    (err : Option GoErr) : App × List Cmd :=
  let a := { a with loading := false }
  if err ≠ none then ({ a with err := err }, [])
  else ({ a with serviceDetails := ⟨service⟩, err := none }, [])

/-- `handleEventsResult`. -/
def App.handleEventsResult (a : App) (events : List String)
    (err : Option GoErr) : App × List Cmd :=
  let a := { a with loading := false }
  if err ≠ none then ({ a with err := err }, [])
  else
    ({ a with eventViewer := a.eventViewer.SetEvents events, err := none }, [])

/-- `handleMetricsResult`: metrics failures are silent; on success the pod
list is rebuilt with metrics columns when it is current. -/
def App.handleMetricsResult (a : App) (ok : Bool) : App × List Cmd :=
  if ¬ok then ({ a with podMetrics := none }, [])
  else
    let a := { a with podMetrics := some () }
    let a :=
      if a.metricsEnabled ∧ a.viewState = ViewState.pods then
        { a with podList := ListModel.mk0 (a.pods.getD []) }
      else a
    (a, [])

/-- `handleContainersResult`: bind the log viewer to the selected pod and
enter the logs view, fetching the initial logs. -/
def App.handleContainersResult (a : App) (containers : List String)
    (err : Option GoErr) : App × List Cmd :=
  let a := { a with loading := false }
  if err ≠ none then ({ a with err := err }, [])
  else
    let viewer := a.logViewer.SetPod a.selectedPodName a.currentNamespace containers
    let a := { a with logViewer := viewer, viewState := ViewState.logs }
    (a, [Cmd.fetchLogs a.selectedPodName a.logViewer.container
          a.logViewer.tailLines a.logViewer.timestamps])

/-- `handleLogsResult`: streaming is not auto-started; the user must press
`f` to follow. -/
def App.handleLogsResult (a : App) (logs : List String) (err : Option GoErr) :
    App × List Cmd :=
  let a := { a with loading := false }
  if err ≠ none then ({ a with err := err }, [])
  else ({ a with logViewer := a.logViewer.SetLogs logs, err := none }, [])

/-! ## SSH handlers -/

/-- `closeSSHConnection`. -/
def App.closeSSHConnection (a : App) : App :=
  { a with hasSSHClient := false, selectedSSHHost := none,
           nodeInfoPresent := false, crictlContainers := none }

/-- `connectToSSHHost`: close any existing connection, create and store the
client, and return the connect task. -/
def App.connectToSSHHost (a : App) (host : SSHHost) : App × List Cmd :=
  let a := a.closeSSHConnection
  let a := { a with hasSSHClient := true, selectedSSHHost := some host }
  (a, [Cmd.retrySSHConnection])

/-- `handleSSHConnectResult`: a passphrase-required failure shows the
passphrase modal; any other failure returns to the host list; success
enters the container list. -/
def App.handleSSHConnectResult (a : App) (err : Option GoErr) : App × List Cmd :=
  let a := { a with loading := false }
  if err ≠ none then
    if err = some GoErr.passphraseRequired then
      let hostName := (a.selectedSSHHost.map SSHHost.name).getD ""
      let (p, cmds) := a.passphraseInput.Show hostName
      ({ a with passphraseInput := p, viewState := ViewState.sshConnecting },
       cmds)
    else
      ({ a with err := err, viewState := ViewState.sshHosts }, [])
  else
    ({ a with viewState := ViewState.crictlContainers, err := none,
              loading := true },
     [Cmd.fetchCrictlContainers, Cmd.fetchNodeInfo])

/-- `handleSSHCrictlContainers`. -/
def App.handleSSHCrictlContainers (a : App) (containers : List CrictlContainer)
    (err : Option GoErr) : App × List Cmd :=
  let a := { a with loading := false }
  if err ≠ none then ({ a with err := err }, [])
  else
    ({ a with crictlContainers := some containers,
              crictlContainerList := a.crictlContainerList.setItems containers,
              err := none }, [])

/-- `handleSSHNodeInfo`: failures are non-fatal and only logged. -/
def App.handleSSHNodeInfo (a : App) (ok : Bool) : App × List Cmd :=
  if ¬ok then (a, [])
  else ({ a with nodeInfoPresent := true }, [])

/-- `handleCrictlLogsResult`. -/
def App.handleCrictlLogsResult (a : App) (logs : List String)
    (err : Option GoErr) : App × List Cmd :=
  let a := { a with loading := false }
  if err ≠ none then ({ a with err := err }, [])
  else
    ({ a with crictlLogViewer := a.crictlLogViewer.SetLogs logs, err := none },
     [])

/-! ## Modal routing blocks

These transcribe the per-modal blocks that appear (identically) in
`handleKeyMsg` for key messages and after the typed switch in `Update` for
other messages. -/

/-- The confirm-dialog block: on `confirmed`, read the armed action and
target, hide the dialog and synthesize the follow-up task. -/
def App.routeToConfirmDialog (a : App) (m : Msg) : App × List Cmd :=
  let (d, confirmed, cancelled, cmd) := a.confirmDialog.update m
  let a := { a with confirmDialog := d }
  if confirmed then
    let action := d.action
    let target := d.targetName
    let a := { a with confirmDialog := a.confirmDialog.Hide }
    match action with
    | ConfirmAction.deletePod => (a, [Cmd.deletePod target])
    | ConfirmAction.restartPod => (a, [Cmd.restartPod target])
    | ConfirmAction.deleteDeployment => (a, [Cmd.deleteDeployment target])
    | ConfirmAction.restartDeployment => (a, [Cmd.restartDeployment target])
    | ConfirmAction.none =>
        let a :=
          if cancelled then { a with confirmDialog := a.confirmDialog.Hide }
          else a
        (a, cmd)
  else
    let a :=
      if cancelled then { a with confirmDialog := a.confirmDialog.Hide } else a
    (a, cmd)

/-- The scale-dialog block. -/
def App.routeToScaleDialog (a : App) (m : Msg) : App × List Cmd :=
  let (d, confirmed, cancelled, cmd) := a.scaleDialog.update m
  let a := { a with scaleDialog := d }
  if confirmed then
    let deployName := d.deployName
    let replicas := d.target
    let a := { a with scaleDialog := a.scaleDialog.Hide }
    (a, [Cmd.scaleDeployment deployName replicas])
  else
    let a :=
      if cancelled then { a with scaleDialog := a.scaleDialog.Hide } else a
    (a, cmd)

/-- The container-selector block: a selection rebinds the log viewer's
container, stops the current stream and refetches logs. -/
def App.routeToContainerSelector (a : App) (m : Msg) : App × List Cmd :=
  let (c, selected, cancelled, cmd) := a.containerSelector.update m
  let a := { a with containerSelector := c }
  if selected then
    let container := c.selected
    let a := { a with containerSelector := a.containerSelector.Hide }
    let a := { a with logViewer := a.logViewer.SetContainer container }
    let a := a.stopLogStream
    let a := { a with loading := true }
    (a, [Cmd.fetchLogs a.logViewer.podName container a.logViewer.tailLines
          a.logViewer.timestamps])
  else
    let a :=
      if cancelled then { a with containerSelector := a.containerSelector.Hide }
      else a
    (a, cmd)

/-- The pod-multi-selector block: a non-empty confirmed selection (with the
"All Pods" sentinel expanded by `SelectedPods`) starts a multi-pod
streaming session. -/
def App.routeToPodMultiSelector (a : App) (m : Msg) : App × List Cmd :=
  let (s, confirmed, cancelled, cmd) := a.podMultiSelector.update m
  let a := { a with podMultiSelector := s }
  if confirmed then
    let pods := s.SelectedPods
    let a := { a with podMultiSelector := a.podMultiSelector.Hide }
    if pods ≠ [] then a.startMultiPodStreaming pods
    else
      let a :=
        if cancelled then { a with podMultiSelector := a.podMultiSelector.Hide }
        else a
      (a, cmd)
  else
    let a :=
      if cancelled then { a with podMultiSelector := a.podMultiSelector.Hide }
      else a
    (a, cmd)

/-- The passphrase-input block: a submitted passphrase is stored on the
client and the SSH connection retried; cancelling returns to the host
list. -/
def App.routeToPassphraseInput (a : App) (m : Msg) : App × List Cmd :=
  let (p, pass, submitted, cancelled, cmd) := a.passphraseInput.update m
  let a := { a with passphraseInput := p }
  if submitted then
    let a := { a with passphraseInput := a.passphraseInput.Hide }
    if a.hasSSHClient ∧ a.selectedSSHHost.isSome then
      let a := { a with sshPassphrase := pass, loading := true }
      (a, [Cmd.retrySSHConnection])
    else
      let a :=
        if cancelled then
          { a with passphraseInput := a.passphraseInput.Hide,
                   viewState := ViewState.sshHosts }
        else a
      (a, cmd)
  else
    let a :=
      if cancelled then
        { a with passphraseInput := a.passphraseInput.Hide,
                 viewState := ViewState.sshHosts }
      else a
    (a, cmd)

/-- The search-input block (key path only): submit or cancel hides the
input (cancel also clears the query in the current log view); otherwise the
query is applied as the user types.  The match-count display is a rendering
detail and is omitted. -/
def App.routeToSearchInput (a : App) (m : Msg) : App × List Cmd :=
  let (s, query, submitted, cancelled, cmd) := a.searchInput.update m
  let a := { a with searchInput := s }
  if submitted ∨ cancelled then
    let a := { a with searchInput := a.searchInput.Hide }
    let a :=
      if cancelled then
        if a.viewState = ViewState.logs then
          { a with logViewer := a.logViewer.SetSearchQuery "" }
        else if a.viewState = ViewState.crictlLogs then
          { a with crictlLogViewer := a.crictlLogViewer.SetSearchQuery "" }
        else a
      else a
    (a, cmd)
  else
    let a :=
      if a.viewState = ViewState.logs then
        { a with logViewer := a.logViewer.SetSearchQuery query }
      else if a.viewState = ViewState.crictlLogs then
        { a with crictlLogViewer := a.crictlLogViewer.SetSearchQuery query }
      else a
    (a, cmd)

/-- The final dispatch to the current view's child widget (the identical
switch closing both `handleKeyMsg` and `Update`). -/
def App.childUpdate (a : App) (m : Msg) : App × List Cmd :=
  match a.viewState with
  | ViewState.kubeConfigSelect =>
      let (l, cmd) := a.kubeConfigList.update
      ({ a with kubeConfigList := l }, cmd)
  | ViewState.namespaces =>
      let (l, cmd) := a.namespaceList.update
      ({ a with namespaceList := l }, cmd)
  | ViewState.pods =>
      let (l, cmd) := a.podList.update
      ({ a with podList := l }, cmd)
  | ViewState.podDetails => (a, [])
  | ViewState.logs =>
      let (v, cmd) := a.logViewer.update
      ({ a with logViewer := v }, cmd)
  | ViewState.multiPodLogs =>
      let (v, cmd) := a.multiPodLogViewer.update m
      ({ a with multiPodLogViewer := v }, cmd)
  | ViewState.sshHosts =>
      let (l, cmd) := a.sshHostList.update
      ({ a with sshHostList := l }, cmd)
  | ViewState.crictlContainers =>
      let (l, cmd) := a.crictlContainerList.update
      ({ a with crictlContainerList := l }, cmd)
  | ViewState.crictlLogs =>
      let (v, cmd) := a.crictlLogViewer.update
      ({ a with crictlLogViewer := v }, cmd)
  | ViewState.deployments =>
      let (l, cmd) := a.deploymentList.update
      ({ a with deploymentList := l }, cmd)
  | ViewState.deploymentDetails => (a, [])
  | ViewState.services =>
      let (l, cmd) := a.serviceList.update
      ({ a with serviceList := l }, cmd)
  | ViewState.serviceDetails => (a, [])
  | ViewState.events =>
      let (v, cmd) := a.eventViewer.update
      ({ a with eventViewer := v }, cmd)
  | _ => (a, [])

/-- The top-level key switch of `handleKeyMsg` (`switch msg.String()`),
reached only when no modal is visible and no list filter is being edited.
`none` models a case that falls through to the child-widget dispatch. -/
def App.keySwitch (a : App) (k : String) : Option (App × List Cmd) :=
  if k = "ctrl+c" then some (a, [Cmd.quit])
  else if k = "?" then
    if a.viewState ≠ ViewState.connecting ∧ a.viewState ≠ ViewState.sshConnecting then
      some ({ a with helpScreen := a.helpScreen.Toggle }, [])
    else none
  else if k = "q" then
    match a.viewState with
    | ViewState.main | ViewState.namespaces | ViewState.pods
    | ViewState.podDetails | ViewState.logs | ViewState.multiPodLogs
    | ViewState.sshHosts | ViewState.crictlContainers | ViewState.crictlLogs
    | ViewState.nodeInfo =>
        let a := a.stopLogStream.stopMultiPodStreams.stopCrictlLogStream.closeSSHConnection
        some (a, [Cmd.quit])
    | ViewState.kubeConfigSelect => some (a, [Cmd.quit])
    | _ => none
  else if k = "enter" then
    match a.viewState with
    | ViewState.kubeConfigSelect =>
        match a.kubeConfigList.selectedItem with
        | some item =>
            some ({ a with selectedConfig := some item,
                           viewState := ViewState.connecting,
                           connectionStatus := ConnectionStatus.connecting,
                           err := none },
                  [Cmd.connectCluster item.path])
        | none => none
    | ViewState.namespaces =>
        match a.namespaceList.selectedItem with
        | some ns =>
            let ci := a.clusterInfo.map (fun c => { c with nspace := ns })
            some ({ a with currentNamespace := ns, clusterInfo := ci,
                           viewState := ViewState.pods, loading := true },
                  [Cmd.fetchPods, Cmd.schedulePodRefresh])
        | none => none
    | ViewState.pods =>
        match a.podList.selectedItem with
        | some p =>
            some ({ a with selectedPodName := p.name,
                           viewState := ViewState.podDetails, loading := true },
                  [Cmd.fetchPodDetails p.name])
        | none => none
    | ViewState.sshHosts =>
        match a.sshHostList.selectedItem with
        | some h =>
            let a := { a with viewState := ViewState.sshConnecting,
                              loading := true, err := none }
            some (a.connectToSSHHost h)
        | none => none
    | ViewState.crictlContainers =>
        match a.crictlContainerList.selectedItem with
        | some c =>
            let nodeName := (a.selectedSSHHost.map SSHHost.name).getD ""
            let viewer := a.crictlLogViewer.SetContainer c.containerID c.name nodeName
            some ({ a with selectedCrictlContainer := some c,
                           crictlLogViewer := viewer,
                           viewState := ViewState.crictlLogs, loading := true },
                  [Cmd.fetchCrictlLogs])
        | none => none
    | ViewState.deployments =>
        match a.deploymentList.selectedItem with
        | some d =>
            some ({ a with selectedDeployName := d.name,
                           viewState := ViewState.deploymentDetails,
                           loading := true },
                  [Cmd.fetchDeploymentDetails d.name])
        | none => none
    | ViewState.services =>
        match a.serviceList.selectedItem with
        | some s =>
            some ({ a with selectedServiceName := s.name,
                           viewState := ViewState.serviceDetails,
                           loading := true },
                  [Cmd.fetchServiceDetails s.name])
        | none => none
    | _ => none
  else if k = "r" then
    match a.viewState with
    | ViewState.namespaces =>
        if a.hasK8sClient then some ({ a with loading := true }, [Cmd.fetchNamespaces])
        else none
    | ViewState.pods =>
        if a.hasK8sClient then some ({ a with loading := true }, [Cmd.fetchPods])
        else none
    | ViewState.podDetails =>
        if a.hasK8sClient ∧ a.selectedPodName ≠ "" then
          some ({ a with loading := true }, [Cmd.fetchPodDetails a.selectedPodName])
        else none
    | ViewState.logs =>
        if a.hasK8sClient then
          let a := a.stopLogStream
          some ({ a with loading := true },
                [Cmd.fetchLogs a.logViewer.podName a.logViewer.container
                  a.logViewer.tailLines a.logViewer.timestamps])
        else none
    | ViewState.main =>
        match a.selectedConfig with
        | some cfg =>
            if a.connectionStatus ≠ ConnectionStatus.connected then
              some ({ a with viewState := ViewState.connecting,
                             connectionStatus := ConnectionStatus.connecting,
                             err := none },
                    [Cmd.connectCluster cfg.path])
            else none
        | none => none
    | ViewState.crictlContainers =>
        if a.hasSSHClient then
          some ({ a with loading := true }, [Cmd.fetchCrictlContainers])
        else none
    | ViewState.crictlLogs =>
        if a.hasSSHClient ∧ a.selectedCrictlContainer.isSome then
          let a := a.stopCrictlLogStream
          some ({ a with loading := true }, [Cmd.fetchCrictlLogs])
        else none
    | ViewState.deployments =>
        if a.hasK8sClient then some ({ a with loading := true }, [Cmd.fetchDeployments])
        else none
    | ViewState.deploymentDetails =>
        if a.hasK8sClient ∧ a.selectedDeployName ≠ "" then
          some ({ a with loading := true },
                [Cmd.fetchDeploymentDetails a.selectedDeployName])
        else none
    | ViewState.services =>
        if a.hasK8sClient then some ({ a with loading := true }, [Cmd.fetchServices])
        else none
    | ViewState.serviceDetails =>
        if a.hasK8sClient ∧ a.selectedServiceName ≠ "" then
          some ({ a with loading := true },
                [Cmd.fetchServiceDetails a.selectedServiceName])
        else none
    | ViewState.events =>
        if a.hasK8sClient then
          some ({ a with loading := true },
                [Cmd.fetchEvents, Cmd.scheduleEventRefresh])
        else none
    | _ => none
  else if k = "l" then
    if a.viewState = ViewState.podDetails ∧ a.selectedPodName ≠ "" then
      some ({ a with logSourceView := ViewState.podDetails, loading := true },
            [Cmd.fetchContainers a.selectedPodName])
    else if a.viewState = ViewState.pods then
      match a.podList.selectedItem with
      | some p =>
          some ({ a with selectedPodName := p.name,
                         logSourceView := ViewState.pods, loading := true },
                [Cmd.fetchContainers p.name])
      | none => none
    else none
  else if k = "L" then
    if a.viewState = ViewState.pods ∧ a.hasK8sClient then
      let pods := a.podList.items
      if pods ≠ [] then
        let (s, cmds) := a.podMultiSelector.Show pods
        some ({ a with podMultiSelector := s }, cmds)
      else none
    else none
  else if k = "d" then
    if a.viewState = ViewState.podDetails ∧ a.selectedPodName ≠ "" then
      let (d, cmds) := a.confirmDialog.Show ConfirmAction.deletePod a.selectedPodName
      some ({ a with confirmDialog := d }, cmds)
    else if a.viewState = ViewState.pods then
      match a.podList.selectedItem with
      | some p =>
          let (d, cmds) := a.confirmDialog.Show ConfirmAction.deletePod p.name
          some ({ a with confirmDialog := d }, cmds)
      | none => none
    else none
  else if k = "R" then
    if a.viewState = ViewState.podDetails ∧ a.selectedPodName ≠ "" then
      let (d, cmds) := a.confirmDialog.Show ConfirmAction.restartPod a.selectedPodName
      some ({ a with confirmDialog := d }, cmds)
    else if a.viewState = ViewState.pods then
      match a.podList.selectedItem with
      | some p =>
          let (d, cmds) := a.confirmDialog.Show ConfirmAction.restartPod p.name
          some ({ a with confirmDialog := d }, cmds)
      | none => none
    else none
  else if k = "f" then
    if a.viewState = ViewState.logs then
      let (v, following) := a.logViewer.ToggleFollowing
      let a := { a with logViewer := v }
      if following then some a.startLogStreaming
      else some (a.stopLogStream, [])
    else if a.viewState = ViewState.crictlLogs then
      let (v, following) := a.crictlLogViewer.ToggleFollowing
      let a := { a with crictlLogViewer := v }
      if following then some a.startCrictlLogStreaming
      else some (a.stopCrictlLogStream, [])
    else if a.viewState = ViewState.events then
      some ({ a with eventViewer := a.eventViewer.ToggleFollowing }, [])
    else if a.viewState = ViewState.multiPodLogs then
      some ({ a with multiPodLogViewer := a.multiPodLogViewer.ToggleFollowing.1 }, [])
    else none
  else if k = "t" then
    if a.viewState = ViewState.logs then
      let a := { a with logViewer := a.logViewer.ToggleTimestamps }
      let a := a.stopLogStream
      some ({ a with loading := true },
            [Cmd.fetchLogs a.logViewer.podName a.logViewer.container
              a.logViewer.tailLines a.logViewer.timestamps])
    else if a.viewState = ViewState.crictlLogs ∧ a.selectedCrictlContainer.isSome then
      let a := { a with crictlLogViewer := a.crictlLogViewer.ToggleTimestamps }
      let a := a.stopCrictlLogStream
      some ({ a with loading := true }, [Cmd.fetchCrictlLogs])
    else none
  else if k = "m" then
    if a.viewState = ViewState.pods then
      if a.metricsClientPresent then
        let a := { a with metricsEnabled := !a.metricsEnabled }
        let a := { a with podList := ListModel.mk0 (a.pods.getD []) }
        if a.metricsEnabled ∧ a.podMetrics = none then some (a, [Cmd.fetchMetrics])
        else some (a, [])
      else
        let n := (a.notification.Show "Metrics not available" NotificationKind.warning).1
        some ({ a with notification := n }, [])
    else none
  else if k = "c" then
    if a.viewState = ViewState.logs ∧ a.logViewer.containers.length > 1 then
      let (c, cmds) :=
        a.containerSelector.Show a.logViewer.containers a.logViewer.container
      some ({ a with containerSelector := c }, cmds)
    else none
  else if k = "/" then
    if a.viewState = ViewState.logs ∨ a.viewState = ViewState.crictlLogs then
      some ({ a with searchInput := a.searchInput.Show }, [])
    else none
  else if k = "s" then
    if a.viewState = ViewState.deployments then
      match a.deploymentList.selectedItem with
      | some d =>
          let (sd, cmds) := a.scaleDialog.Show d.name d.replicas
          some ({ a with scaleDialog := sd }, cmds)
      | none => none
    else if a.viewState = ViewState.deploymentDetails then
      match a.deploymentDetails.deployment with
      | some d =>
          let (sd, cmds) := a.scaleDialog.Show d.name d.replicas
          some ({ a with scaleDialog := sd }, cmds)
      | none => none
    else none
  else if k = "w" then
    if a.viewState = ViewState.events then
      some ({ a with eventViewer := a.eventViewer.ToggleWarningsOnly }, [])
    else none
  else if k = "k" then
    if a.viewState = ViewState.events then
      some ({ a with eventViewer := a.eventViewer.CycleKindFilter }, [])
    else none
  else if k = "n" then
    if a.viewState = ViewState.logs ∧ a.logViewer.searchQuery ≠ "" then some (a, [])
    else if a.viewState = ViewState.crictlLogs ∧ a.crictlLogViewer.searchQuery ≠ "" then
      some (a, [])
    else none
  else if k = "N" then
    if a.viewState = ViewState.logs ∧ a.logViewer.searchQuery ≠ "" then some (a, [])
    else if a.viewState = ViewState.crictlLogs ∧ a.crictlLogViewer.searchQuery ≠ "" then
      some (a, [])
    else none
  else if k = "1" then
    if a.connectionStatus = ConnectionStatus.connected ∧
        a.viewState ≠ ViewState.namespaces then
      some ({ a with viewState := ViewState.namespaces, loading := true },
            [Cmd.fetchNamespaces])
    else none
  else if k = "2" then
    if a.connectionStatus = ConnectionStatus.connected ∧
        a.viewState ≠ ViewState.pods then
      some ({ a with viewState := ViewState.pods, loading := true },
            [Cmd.fetchPods, Cmd.schedulePodRefresh])
    else none
  else if k = "3" then
    if a.connectionStatus = ConnectionStatus.connected ∧
        a.viewState ≠ ViewState.deployments then
      some ({ a with viewState := ViewState.deployments, loading := true },
            [Cmd.fetchDeployments])
    else none
  else if k = "4" then
    if a.connectionStatus = ConnectionStatus.connected ∧
        a.viewState ≠ ViewState.services then
      some ({ a with viewState := ViewState.services, loading := true },
            [Cmd.fetchServices])
    else none
  else if k = "5" then
    if a.connectionStatus = ConnectionStatus.connected ∧
        a.viewState ≠ ViewState.events then
      some ({ a with viewState := ViewState.events, loading := true },
            [Cmd.fetchEvents, Cmd.scheduleEventRefresh])
    else none
  else if k = "9" then
    if a.config.sshHosts ≠ [] then
      some ({ a with viewState := ViewState.sshHosts, err := none }, [])
    else none
  else if k = "esc" then
    match a.viewState with
    | ViewState.main =>
        if a.connectionStatus = ConnectionStatus.connected then
          some ({ a with viewState := ViewState.pods },
                [Cmd.fetchPods, Cmd.schedulePodRefresh])
        else if a.config.kubeConfigs.length > 1 then
          some ({ a with viewState := ViewState.kubeConfigSelect,
                         hasK8sClient := false, clusterInfo := none,
                         connectionStatus := ConnectionStatus.disconnected }, [])
        else none
    | ViewState.logs =>
        let a := a.stopLogStream
        let a := { a with logViewer := a.logViewer.Clear }
        if a.logSourceView = ViewState.pods then
          some ({ a with viewState := ViewState.pods, selectedPodName := "" },
                [Cmd.fetchPods, Cmd.schedulePodRefresh])
        else
          some ({ a with viewState := ViewState.podDetails, loading := true },
                [Cmd.fetchPodDetails a.selectedPodName])
    | ViewState.multiPodLogs =>
        let a := a.stopMultiPodStreams
        some ({ a with multiPodLogViewer := a.multiPodLogViewer.Clear,
                       viewState := ViewState.pods },
              [Cmd.fetchPods, Cmd.schedulePodRefresh])
    | ViewState.podDetails =>
        some ({ a with viewState := ViewState.pods, selectedPodName := "" },
              [Cmd.fetchPods, Cmd.schedulePodRefresh])
    | ViewState.pods =>
        some ({ a with viewState := ViewState.namespaces }, [Cmd.fetchNamespaces])
    | ViewState.namespaces =>
        if a.config.kubeConfigs.length > 1 then
          some ({ a with viewState := ViewState.kubeConfigSelect,
                         hasK8sClient := false, clusterInfo := none,
                         connectionStatus := ConnectionStatus.disconnected }, [])
        else none
    | ViewState.sshHosts =>
        if a.connectionStatus = ConnectionStatus.connected then
          some ({ a with viewState := ViewState.pods },
                [Cmd.fetchPods, Cmd.schedulePodRefresh])
        else
          some ({ a with viewState := ViewState.namespaces }, [Cmd.fetchNamespaces])
    | ViewState.crictlContainers =>
        let a := a.closeSSHConnection
        some ({ a with viewState := ViewState.sshHosts }, [])
    | ViewState.nodeInfo =>
        let a := a.closeSSHConnection
        some ({ a with viewState := ViewState.sshHosts }, [])
    | ViewState.crictlLogs =>
        let a := a.stopCrictlLogStream
        some ({ a with crictlLogViewer := a.crictlLogViewer.Clear,
                       selectedCrictlContainer := none,
                       viewState := ViewState.crictlContainers }, [])
    | ViewState.deployments =>
        some ({ a with viewState := ViewState.pods },
              [Cmd.fetchPods, Cmd.schedulePodRefresh])
    | ViewState.deploymentDetails =>
        some ({ a with viewState := ViewState.deployments,
                       selectedDeployName := "" },
              [Cmd.fetchDeployments])
    | ViewState.services =>
        some ({ a with viewState := ViewState.pods },
              [Cmd.fetchPods, Cmd.schedulePodRefresh])
    | ViewState.serviceDetails =>
        some ({ a with viewState := ViewState.services,
                       selectedServiceName := "" },
              [Cmd.fetchServices])
    | ViewState.events =>
        some ({ a with viewState := ViewState.pods },
              [Cmd.fetchPods, Cmd.schedulePodRefresh])
    | _ => none
  else none

/-- `handleKeyMsg`: keys during the connecting view are swallowed (except
quit); then the visible modal, if any, consumes the key, in the fixed
priority order; then list-filter editing consumes it; then the top-level
key switch; finally the current view's child widget. -/
def App.handleKeyMsg (a : App) (k : String) : App × List Cmd :=
  if a.viewState = ViewState.connecting then
    if k = "ctrl+c" then (a, [Cmd.quit]) else (a, [])
  else if a.confirmDialog.visible then a.routeToConfirmDialog (Msg.key k)
  else if a.scaleDialog.visible then a.routeToScaleDialog (Msg.key k)
  else if a.helpScreen.visible then
    if k = "?" ∨ k = "esc" then ({ a with helpScreen := a.helpScreen.Hide }, [])
    else (a, [])
  else if a.containerSelector.visible then a.routeToContainerSelector (Msg.key k)
  else if a.podMultiSelector.visible then a.routeToPodMultiSelector (Msg.key k)
  else if a.passphraseInput.visible then a.routeToPassphraseInput (Msg.key k)
  else if a.searchInput.visible then a.routeToSearchInput (Msg.key k)
  else if a.viewState = ViewState.kubeConfigSelect ∧ a.kubeConfigList.settingFilter then
    let (l, cmd) := a.kubeConfigList.update
    ({ a with kubeConfigList := l }, cmd)
  else if a.viewState = ViewState.namespaces ∧ a.namespaceList.settingFilter then
    let (l, cmd) := a.namespaceList.update
    ({ a with namespaceList := l }, cmd)
  else if a.viewState = ViewState.pods ∧ a.podList.settingFilter then
    let (l, cmd) := a.podList.update
    ({ a with podList := l }, cmd)
  else if a.viewState = ViewState.sshHosts ∧ a.sshHostList.settingFilter then
    let (l, cmd) := a.sshHostList.update
    ({ a with sshHostList := l }, cmd)
  else if a.viewState = ViewState.crictlContainers ∧ a.crictlContainerList.settingFilter then
    let (l, cmd) := a.crictlContainerList.update
    ({ a with crictlContainerList := l }, cmd)
  else
    match a.keySwitch k with
    | some r => r
    | none => a.childUpdate (Msg.key k)

/-- The `tea.WindowSizeMsg` branch of `Update`: recompute the layout and
rebuild the list widgets (the kubeconfig and SSH host lists from the
configuration, the data lists empty until the next fetch). -/
def App.handleWindowSize (a : App) (w h : Int) : App × List Cmd :=
  let a := { a with width := w, height := h, ready := true }
  let a :=
    if w ≥ 90 then
      let sw0 := w / 4
      let sw1 := if sw0 < 24 then 24 else sw0
      let sw : Int := if sw1 > 30 then 30 else sw1
      { a with showSidebar := true, sidebarWidth := sw,
               contentWidth := w - 4 - sw }
    else
      { a with showSidebar := false, sidebarWidth := 0, contentWidth := w - 4 }
  let a :=
    { a with kubeConfigList := ListModel.mk0 a.config.kubeConfigs,
             namespaceList := ListModel.mk0 [],
             podList := ListModel.mk0 [],
             sshHostList := ListModel.mk0 a.config.sshHosts,
             crictlContainerList := ListModel.mk0 [],
             deploymentList := ListModel.mk0 [],
             serviceList := ListModel.mk0 [] }
  (a, [])

/-- The non-key, non-typed tail of `Update`: route the message to the
visible dialog (confirm, scale, container-selector, multi-pod-selector,
passphrase — the help screen and search input are key-only overlays and are
not consulted here), else to the current view's child widget. -/
def App.nonKeyRoute (a : App) (m : Msg) : App × List Cmd :=
  if a.confirmDialog.visible then a.routeToConfirmDialog m
  else if a.scaleDialog.visible then a.routeToScaleDialog m
  else if a.containerSelector.visible then a.routeToContainerSelector m
  else if a.podMultiSelector.visible then a.routeToPodMultiSelector m
  else if a.passphraseInput.visible then a.routeToPassphraseInput m
  else a.childUpdate m

/-- `Update`: the typed message switch, the periodic-refresh branches, and
the generic routing tail. -/
def App.Update (a : App) (m : Msg) : App × List Cmd :=
  match m with
  | Msg.key k => a.handleKeyMsg k
  | Msg.windowSize w h => a.handleWindowSize w h
  | Msg.connectResult err info mok => a.handleConnectResult err info mok
  | Msg.namespacesResult ns err => a.handleNamespacesResult ns err
  | Msg.podsResult ps err => a.handlePodsResult ps err
  | Msg.podDetailsResult err => a.handlePodDetailsResult err
  | Msg.podRefreshTick =>
      if a.viewState = ViewState.pods ∧ a.hasK8sClient ∧
          ¬a.confirmDialog.visible ∧ ¬a.podList.settingFilter ∧
          ¬a.podList.filterActive then
        (a, [Cmd.fetchPods, Cmd.schedulePodRefresh])
      else if a.viewState = ViewState.pods ∧ a.hasK8sClient then
        (a, [Cmd.schedulePodRefresh])
      else (a, [])
  | Msg.eventRefreshTick =>
      if a.viewState = ViewState.events ∧ a.hasK8sClient ∧
          a.eventViewer.following then
        (a, [Cmd.fetchEvents, Cmd.scheduleEventRefresh])
      else if a.viewState = ViewState.events ∧ a.hasK8sClient then
        (a, [Cmd.scheduleEventRefresh])
      else (a, [])
  | Msg.podDeleteResult n err => a.handlePodDeleteResult n err
  | Msg.podRestartResult n err => a.handlePodRestartResult n err
  | Msg.notificationExpired => ({ a with notification := a.notification.Hide }, [])
  | Msg.containersResult cs err => a.handleContainersResult cs err
  | Msg.logsResult ls err => a.handleLogsResult ls err
  | Msg.logLine l => a.handleLogLine l
  | Msg.logStreamEnded err => a.handleLogStreamEnded err
  | Msg.multiPodLogLine p c l => a.handleMultiPodLogLine p c l
  | Msg.multiPodLogStreamEnded p err => a.handleMultiPodLogStreamEnded p err
  | Msg.sshConnectResult err => a.handleSSHConnectResult err
  | Msg.sshCrictlContainers cs err => a.handleSSHCrictlContainers cs err
  | Msg.sshNodeInfo ok => a.handleSSHNodeInfo ok
  | Msg.sshCrictlLogs ls err => a.handleCrictlLogsResult ls err
  | Msg.sshCrictlLogLine l => a.handleCrictlLogLine l
  | Msg.sshCrictlLogStreamEnded err => a.handleCrictlLogStreamEnded err
  | Msg.deploymentsResult ds err => a.handleDeploymentsResult ds err
  | Msg.deploymentDetailsResult d err => a.handleDeploymentDetailsResult d err
  | Msg.deploymentScaleResult n r err => a.handleDeploymentScaleResult n r err
  | Msg.deploymentRestartResult n err => a.handleDeploymentRestartResult n err
  | Msg.deploymentDeleteResult n err => a.handleDeploymentDeleteResult n err
  | Msg.servicesResult ss err => a.handleServicesResult ss err
  | Msg.serviceDetailsResult s err => a.handleServiceDetailsResult s err
  | Msg.eventsResult es err => a.handleEventsResult es err
  | Msg.metricsResult ok => a.handleMetricsResult ok
  | Msg.spinnerTick => (a, [Cmd.spinnerTick])
  | Msg.other => a.nonKeyRoute Msg.other

/-- Run the loop over a sequence of messages, discarding emitted tasks:
exactly the set of states reachable by processing those messages one at a
time. -/
def App.processMsgs (a : App) (ms : List Msg) : App :=
  ms.foldl (fun s m => (s.Update m).1) a

/-! ## Observables used by the claims -/

/-- The seven modal overlays, in the priority order the dispatcher checks
them. -/
inductive ModalId where
  | confirm
  | scale
  | help
  | containerSel
  | multiSel
  | passphrase
  | search
  deriving DecidableEq

/-- Visibility of each modal in a given state. -/
def App.modalVisible (a : App) : ModalId → Bool
  | ModalId.confirm => a.confirmDialog.visible
  | ModalId.scale => a.scaleDialog.visible
  | ModalId.help => a.helpScreen.visible
  | ModalId.containerSel => a.containerSelector.visible
  | ModalId.multiSel => a.podMultiSelector.visible
  | ModalId.passphrase => a.passphraseInput.visible
  | ModalId.search => a.searchInput.visible

/-- The fixed priority order: confirm, scale, help, container-selector,
multi-pod-selector, passphrase, search. -/
def modalPriority : List ModalId :=
  [ModalId.confirm, ModalId.scale, ModalId.help, ModalId.containerSel,
   ModalId.multiSel, ModalId.passphrase, ModalId.search]

/-- The first visible modal in priority order, if any. -/
def App.firstVisibleModal (a : App) : Option ModalId :=
  modalPriority.find? a.modalVisible

/-- Which component consumes a key message. -/
inductive KeyConsumer where
  | connectingGuard
  | modal (m : ModalId)
  | filterList
  | topLevel
  | view
  deriving DecidableEq

/-- The dispatch structure of `handleKeyMsg`: who consumes the key.
`connectingGuard` is the connecting-view guard at the top, `modal m` a
visible modal's block, `filterList` a list in filter-editing mode,
`topLevel` the top-level key switch, `view` the fall-through to the current
view's child widget. -/
def App.keyConsumer (a : App) (k : String) : KeyConsumer :=
  if a.viewState = ViewState.connecting then KeyConsumer.connectingGuard
  else if a.confirmDialog.visible then KeyConsumer.modal ModalId.confirm
  else if a.scaleDialog.visible then KeyConsumer.modal ModalId.scale
  else if a.helpScreen.visible then KeyConsumer.modal ModalId.help
  else if a.containerSelector.visible then KeyConsumer.modal ModalId.containerSel
  else if a.podMultiSelector.visible then KeyConsumer.modal ModalId.multiSel
  else if a.passphraseInput.visible then KeyConsumer.modal ModalId.passphrase
  else if a.searchInput.visible then KeyConsumer.modal ModalId.search
  else if (a.viewState = ViewState.kubeConfigSelect ∧ a.kubeConfigList.settingFilter)
      ∨ (a.viewState = ViewState.namespaces ∧ a.namespaceList.settingFilter)
      ∨ (a.viewState = ViewState.pods ∧ a.podList.settingFilter)
      ∨ (a.viewState = ViewState.sshHosts ∧ a.sshHostList.settingFilter)
      ∨ (a.viewState = ViewState.crictlContainers ∧ a.crictlContainerList.settingFilter) then
    KeyConsumer.filterList
  else
    match a.keySwitch k with
    | some _ => KeyConsumer.topLevel
    | none => KeyConsumer.view

/-- The single-source producer tasks among a command list, with the pod and
the stream options they were launched with. -/
def singleStreamStarts : List Cmd → List (String × LogOptions)
  | [] => []
  | Cmd.streamPodLogs p o :: rest => (p, o) :: singleStreamStarts rest
  | _ :: rest => singleStreamStarts rest

/-- The multi-source producer tasks among a command list, with the pod,
container and requested tail lines. -/
def multiStreamStarts : List Cmd → List (String × String × Int)
  | [] => []
  | Cmd.streamMultiPodLogs p c t :: rest => (p, c, t) :: multiStreamStarts rest
  | _ :: rest => multiStreamStarts rest

/-- The fetch and re-arm tasks a periodic-refresh tick may emit. -/
def isRefreshTask : Cmd → Bool
  | Cmd.fetchPods => true
  | Cmd.fetchEvents => true
  | Cmd.schedulePodRefresh => true
  | Cmd.scheduleEventRefresh => true
  | _ => false

/-- Process a sequence of per-source stream-ended messages, concatenating
the emitted commands. -/
def App.processMultiPodEnds (a : App) :
    List (String × Option GoErr) → App × List Cmd
  | [] => (a, [])
  | (p, e) :: rest =>
      let r := a.handleMultiPodLogStreamEnded p e
      let r2 := r.1.processMultiPodEnds rest
      (r2.1, r.2 ++ r2.2)

/-- The header lines among the rendered content. -/
def countHeaders : List RenderedLine → Nat
  | [] => 0
  | RenderedLine.header _ :: rest => countHeaders rest + 1
  | _ :: rest => countHeaders rest

/-- The number of adjacent-append source changes in a list of tagged
entries: each position whose source key differs from its predecessor's
(the fictitious predecessor of the first entry has the empty source). -/
def adjacentSourceChanges (es : List MultiPodLogEntry) : Nat :=
  let srcs := es.map MultiPodLogEntry.sourceKey
  (("" :: srcs).zip srcs).countP (fun p => p.1 ≠ p.2)

/-- The number of distinct sources among the entries. -/
def distinctSources (es : List MultiPodLogEntry) : Nat :=
  (es.map MultiPodLogEntry.sourceKey).dedup.length

/-! ## Concrete demonstration data -/

/-- A configuration with one kubeconfig (auto-selected at startup) and one
SSH host. -/
def demoCfg : Config :=
  ⟨[⟨"prod", "/home/user/kubeconfig"⟩], [⟨"node1", "10.0.0.1"⟩]⟩

/-- A pod with one container. -/
def demoPod : Pod := ⟨"web", ["app"]⟩

/-- The state after startup (`NewApp` + `Init`): auto-connecting to the
single configured cluster. -/
def startupApp : App := ((newApp demoCfg).Init).1

/-- A message sequence reachable in a real session: the window opens, the
cluster connects, the user browses to the SSH hosts view and starts an SSH
connection, jumps back to the pods view with the digit key while the SSH
connect task is still in flight, opens the delete-pod confirm dialog — and
then the stale SSH connect result arrives asking for a passphrase. -/
def c3Script : List Msg :=
  [Msg.windowSize 120 40,
   Msg.connectResult none ⟨"prod-ctx", "default"⟩ false,
   Msg.key "9",
   Msg.key "enter",
   Msg.key "2",
   Msg.podsResult [demoPod] none,
   Msg.key "d",
   Msg.sshConnectResult (some GoErr.passphraseRequired)]

/-- The state after the first seven messages of `c3Script`: the confirm
dialog is open. -/
def c3Mid : App := startupApp.processMsgs (c3Script.take 7)

/-- The state after the whole of `c3Script`. -/
def c3Final : App := startupApp.processMsgs c3Script

/-- A connected state on the namespaces view (the pod-refresh timer's
scheduling view is the pods view). -/
def c4App : App :=
  { newApp demoCfg with viewState := ViewState.namespaces, hasK8sClient := true }

/-- A disconnected state on the pods view with an SSH host configured. -/
def c8App : App :=
  { newApp demoCfg with viewState := ViewState.pods,
                        connectionStatus := ConnectionStatus.disconnected }

/-- A state with only the confirm dialog visible, on the pods view. -/
def c3WitnessApp : App :=
  { newApp demoCfg with viewState := ViewState.pods,
                        confirmDialog :=
                          (ConfirmDialog.new.Show ConfirmAction.deletePod "web").1 }

/-- Three tagged entries: sources alternate `web-1/app`, `web-2/app`,
`web-1/app` — three adjacent source changes, two distinct sources. -/
def c6Demo : List MultiPodLogEntry :=
  [⟨"web-1", "app", "alpha"⟩, ⟨"web-2", "app", "beta"⟩, ⟨"web-1", "app", "gamma"⟩]

/-- A connected state following logs of pod `web`, container `app`. -/
def c2App : App :=
  { newApp demoCfg with
    viewState := ViewState.logs
    hasK8sClient := true
    currentNamespace := "default"
    logViewer :=
      { LogViewer.new with podName := "web", container := "app",
                           containers := ["app"], following := true } }

/-- A connected state on the pods view with two listed pods, an active
multi-pod session context, and container map entries. -/
def c5App : App :=
  { newApp demoCfg with
    viewState := ViewState.pods
    hasK8sClient := true
    currentNamespace := "default"
    podList := ListModel.mk0 [⟨"web-1", ["app"]⟩, ⟨"web-2", ["app"]⟩] }

/-- A running three-pod multi-log session. -/
def c7App : App :=
  (c5App.startMultiPodStreaming ["web-1", "web-2"]).1

/-- A state in the pod-details view with a selected pod. -/
def c9App : App :=
  { newApp demoCfg with
    viewState := ViewState.podDetails
    hasK8sClient := true
    selectedPodName := "web"
    connectionStatus := ConnectionStatus.connected }

/-! # Theorems -/

/-- C10: a log-line message processed while the current view is not the
logs view is silently discarded — the state (hence the viewer content and
the notification) is unchanged and no command (in particular no further
read of the stream's channel) is issued. -/
theorem logLine_outside_logs_view_discarded (a : App) (line : String)
    (h : a.viewState ≠ ViewState.logs) :
    a.handleLogLine line = (a, []) := by
  simp [App.handleLogLine, h]

theorem logLine_outside_logs_view_discarded_witness :
    c4App.viewState ≠ ViewState.logs ∧ c4App.handleLogLine "boom" = (c4App, []) :=
  ⟨by decide, logLine_outside_logs_view_discarded c4App "boom" (by decide)⟩

/-- C4 (counterexample): a periodic pod-refresh tick received while the
current view (namespaces) differs from the scheduling view (pods) emits no
command at all — in particular it does **not** re-arm the next tick, contrary
to the claim that each such tick still re-arms. -/
theorem tick_view_mismatch_no_rearm_counterexample :
    c4App.viewState ≠ ViewState.pods ∧
    (c4App.Update Msg.podRefreshTick).2 = [] := by
  constructor
  · decide
  · rfl

/-- C4 (amended): a periodic refresh tick received while the current view
differs from the scheduling view produces zero fetch tasks **and zero
re-arms** — the handler returns the state unchanged with no commands, so
the tick chain stops immediately (for both the pod and the event refresh
timers). -/
theorem tick_view_mismatch_stops_chain (a : App) :
    (a.viewState ≠ ViewState.pods → a.Update Msg.podRefreshTick = (a, [])) ∧
    (a.viewState ≠ ViewState.events → a.Update Msg.eventRefreshTick = (a, [])) := by
  constructor <;> intro h <;> simp [App.Update, h]

theorem tick_view_mismatch_stops_chain_witness :
    c4App.viewState ≠ ViewState.pods ∧
    c4App.Update Msg.podRefreshTick = (c4App, []) :=
  ⟨by decide, (tick_view_mismatch_stops_chain c4App).1 (by decide)⟩

/-- C1 (code bug): the stream-ended message never carries the error with
which the producer terminated.  The producer discards the error returned by
`StreamPodLogs` and closes the queue; a closed queue is delivered by
`waitForLogLine` as `logStreamEndedMsg{}` with a nil error — identically for
a failed producer and for a cancelled one — so the dead branches of
`handleLogStreamEnded` testing `msg.err` can never see the error the spec
says the message carries. -/
theorem streamEnded_message_error_always_nil :
    waitForLogLineRecv
        (producerTerminate (some (GoErr.other "connection reset")) ⟨[], false⟩)
      = some (Msg.logStreamEnded none, ⟨[], true⟩) ∧
    waitForLogLineRecv (producerTerminate (some GoErr.canceled) ⟨[], false⟩)
      = some (Msg.logStreamEnded none, ⟨[], true⟩) ∧
    some (GoErr.other "connection reset") ≠ (none : Option GoErr) :=
  ⟨rfl, rfl, by decide⟩

/-- C2: for a single-source stream-ended message processed with follow mode
enabled and the logs view current (and a connected client, as any live
session implies), a cancelled end schedules nothing, and any other end
schedules exactly one restarted producer, which requests zero re-fetched
tail lines. -/
theorem logStreamEnded_restart_policy (a : App) (err : Option GoErr)
    (hf : a.logViewer.following = true) (hv : a.viewState = ViewState.logs)
    (hk : a.hasK8sClient = true) :
    (err = some GoErr.canceled → (a.handleLogStreamEnded err).2 = []) ∧
    (err ≠ some GoErr.canceled →
      singleStreamStarts (a.handleLogStreamEnded err).2 =
        [(a.logViewer.podName,
          ⟨a.logViewer.container, 0, a.logViewer.timestamps, true⟩)]) := by
  constructor
  · intro he
    simp [App.handleLogStreamEnded, he]
  · intro he
    simp only [App.handleLogStreamEnded, App.startLogStreaming, App.stopLogStream]
    cases hcancel : a.logStreamCancel <;>
      simp [he, hf, hv, hk, hcancel, singleStreamStarts]

/-- Headers count distributes over list append. -/
theorem countHeaders_append (xs ys : List RenderedLine) :
    countHeaders (xs ++ ys) = countHeaders xs + countHeaders ys := by
  induction xs with
  | nil => simp [countHeaders]
  | cons x rest ih =>
      cases x
      all_goals simp [countHeaders, ih]
      all_goals omega

/-- The rendered content of the multi-pod viewer contains one header per
position whose source differs from the previously rendered source
(initially `last`). -/
theorem countHeaders_renderEntries (es : List MultiPodLogEntry) (last : String) :
    countHeaders (renderEntries last es) =
      ((last :: es.map MultiPodLogEntry.sourceKey).zip
          (es.map MultiPodLogEntry.sourceKey)).countP (fun p => p.1 ≠ p.2) := by
  induction es generalizing last with
  | nil => simp [renderEntries, countHeaders]
  | cons e rest ih =>
      simp only [List.map_cons, List.zip_cons_cons, List.countP_cons]
      by_cases h : e.sourceKey = last
      · subst h
        rw [renderEntries, if_neg (by simp)]
        simp [countHeaders, ih]
      · by_cases hl : last = ""
        · subst hl
          rw [renderEntries, if_pos (by simp [h]), if_neg (by simp)]
          simp [countHeaders, ih, Ne.symm h]
        · rw [renderEntries, if_pos (by simp [h]), if_pos (by simp [hl])]
          simp [countHeaders, ih, Ne.symm h]

/-- C6: for every sequence of tagged entries appended to the multi-pod log
viewer, the number of header lines in the rendered content equals the
number of adjacent-append source changes of the retained entries — and, as
the concrete alternating example shows, not the number of distinct
sources. -/
theorem multiPod_header_count :
    (∀ raw : List MultiPodLogEntry,
      countHeaders
          (raw.foldl MultiPodLogViewer.AppendEntry
            MultiPodLogViewer.new).updateContent =
        adjacentSourceChanges
          (raw.foldl MultiPodLogViewer.AppendEntry
            MultiPodLogViewer.new).entries) ∧
    countHeaders
        (MultiPodLogViewer.updateContent
          { MultiPodLogViewer.new with entries := c6Demo }) = 3 ∧
    distinctSources c6Demo = 2 := by
  refine ⟨?_, by decide, by decide⟩
  intro raw
  simpa [MultiPodLogViewer.updateContent, adjacentSourceChanges] using
    countHeaders_renderEntries
      (raw.foldl MultiPodLogViewer.AppendEntry MultiPodLogViewer.new).entries ""

/-- Stream-start collection distributes over command-list append. -/
theorem multiStreamStarts_append (xs ys : List Cmd) :
    multiStreamStarts (xs ++ ys) = multiStreamStarts xs ++ multiStreamStarts ys := by
  induction xs with
  | nil => simp [multiStreamStarts]
  | cons x rest ih => cases x <;> simp [multiStreamStarts, ih]

/-- Stopping the multi-pod session leaves the pod list untouched. -/
theorem stopMultiPodStreams_podList (a : App) :
    a.stopMultiPodStreams.podList = a.podList := by
  unfold App.stopMultiPodStreams
  cases a.multiPodStreamCancel <;> rfl

/-- The loop of `startMultiPodStreaming` emits exactly one producer task
per pod, each with the pod's mapped container and a 100-line tail. -/
theorem startMultiPod_fold_streams (pods : List String) (ctx : Nat)
    (pcm : List (String × String)) (acc : App × List Cmd) :
    multiStreamStarts ((pods.foldl (App.startMultiPodStep ctx pcm) acc).2) =
      multiStreamStarts acc.2 ++
        pods.map (fun p => (p, ((pcm.lookup p).getD ""), 100)) := by
  induction pods generalizing acc with
  | nil => simp
  | cons p rest ih =>
      rw [List.foldl_cons, ih]
      simp [App.startMultiPodStep, App.startSinglePodStream,
            multiStreamStarts_append, multiStreamStarts]

/-- C5: every per-source stream started by a fresh multi-pod session
requests a 100-line historical tail (one producer per selected pod), and
every producer started by the end-of-stream handler (the automatic restart
after a non-cancelled end) requests zero tail lines. -/
theorem multiPod_tail_policy (a : App) (podNames : List String)
    (pod : String) (err : Option GoErr) (hk : a.hasK8sClient = true) :
    multiStreamStarts (a.startMultiPodStreaming podNames).2 =
      podNames.map (fun p =>
        (p, ((buildPodContainerMap a.podList.items podNames).lookup p).getD "",
         100)) ∧
    (err ≠ some GoErr.canceled →
      ∀ x ∈ multiStreamStarts (a.handleMultiPodLogStreamEnded pod err).2,
        x.2.2 = 0) := by
  constructor
  · simp [App.startMultiPodStreaming, hk, startMultiPod_fold_streams,
          multiStreamStarts, stopMultiPodStreams_podList]
  · intro he x hx
    simp only [App.handleMultiPodLogStreamEnded, App.startSinglePodStream] at hx
    rw [if_neg he] at hx
    split at hx
    · split at hx
      · simp [multiStreamStarts] at hx
        simp [hx]
      · simp [multiStreamStarts] at hx
    · simp [multiStreamStarts] at hx

theorem multiPod_tail_policy_witness :
    c5App.hasK8sClient = true ∧
    multiStreamStarts (c5App.startMultiPodStreaming ["web-1", "web-2"]).2 =
      ["web-1", "web-2"].map (fun p =>
        (p, ((buildPodContainerMap c5App.podList.items
                ["web-1", "web-2"]).lookup p).getD "", 100)) :=
  ⟨by decide,
   (multiPod_tail_policy c5App ["web-1", "web-2"] "web-1" none (by decide)).1⟩

/-- One stream-ended message processed on an inactive, scope-less session
emits nothing and keeps the session inactive and scope-less. -/
theorem handleMultiPodLogStreamEnded_inactive (a : App) (p : String)
    (e : Option GoErr) (h1 : a.multiPodStreamActive = false)
    (h2 : a.multiPodStreamCtx = none) :
    (a.handleMultiPodLogStreamEnded p e).2 = [] ∧
    (a.handleMultiPodLogStreamEnded p e).1.multiPodStreamActive = false ∧
    (a.handleMultiPodLogStreamEnded p e).1.multiPodStreamCtx = none := by
  unfold App.handleMultiPodLogStreamEnded
  by_cases he : e = some GoErr.canceled
  · simp [he, h1, h2]
  · simp [he, h1, h2]

/-- Once the multi-pod session is inactive with no shared scope, processing
any sequence of per-source stream-ended messages emits no producer task and
keeps the session inactive with no scope. -/
theorem processMultiPodEnds_inactive (ends : List (String × Option GoErr))
    (a : App) (h1 : a.multiPodStreamActive = false)
    (h2 : a.multiPodStreamCtx = none) :
    multiStreamStarts (a.processMultiPodEnds ends).2 = [] ∧
    (a.processMultiPodEnds ends).1.multiPodStreamActive = false ∧
    (a.processMultiPodEnds ends).1.multiPodStreamCtx = none := by
  induction ends generalizing a with
  | nil => exact ⟨rfl, h1, h2⟩
  | cons pe rest ih =>
      obtain ⟨p, e⟩ := pe
      obtain ⟨s1, s2, s3⟩ := handleMultiPodLogStreamEnded_inactive a p e h1 h2
      obtain ⟨ih1, ih2, ih3⟩ := ih (a.handleMultiPodLogStreamEnded p e).1 s2 s3
      simp only [App.processMultiPodEnds]
      refine ⟨?_, ih2, ih3⟩
      rw [multiStreamStarts_append, s1, ih1]
      simp [multiStreamStarts]

/-- C7: a global stop of the multi-pod session cancels the shared scope,
marks the session inactive with an active-stream count of zero, and no
per-source stream-ended message processed on any later such state ever
emits a restarted producer. -/
theorem stopMultiPod_cancels_and_blocks_restarts (a : App) (c : Nat)
    (hc : a.multiPodStreamCancel = some c)
    (ends : List (String × Option GoErr)) :
    c ∈ a.stopMultiPodStreams.cancelledCtxs ∧
    a.stopMultiPodStreams.multiPodStreamActive = false ∧
    a.stopMultiPodStreams.multiPodActiveStreams = 0 ∧
    multiStreamStarts (a.stopMultiPodStreams.processMultiPodEnds ends).2 = [] := by
  have hstop : a.stopMultiPodStreams.multiPodStreamActive = false ∧
      a.stopMultiPodStreams.multiPodStreamCtx = none ∧
      a.stopMultiPodStreams.multiPodActiveStreams = 0 ∧
      c ∈ a.stopMultiPodStreams.cancelledCtxs := by
    unfold App.stopMultiPodStreams
    simp [hc]
  obtain ⟨hs1, hs2, hs3, hs4⟩ := hstop
  exact ⟨hs4, hs1, hs3,
    (processMultiPodEnds_inactive ends a.stopMultiPodStreams hs1 hs2).1⟩

theorem stopMultiPod_cancels_and_blocks_restarts_witness :
    c7App.multiPodStreamCancel = some 0 ∧
    (0 ∈ c7App.stopMultiPodStreams.cancelledCtxs ∧
     c7App.stopMultiPodStreams.multiPodStreamActive = false ∧
     c7App.stopMultiPodStreams.multiPodActiveStreams = 0 ∧
     multiStreamStarts
        (c7App.stopMultiPodStreams.processMultiPodEnds
          [("web-1", none), ("web-2", none)]).2 = []) :=
  ⟨by decide,
   stopMultiPod_cancels_and_blocks_restarts c7App 0 (by decide)
     [("web-1", none), ("web-2", none)]⟩

/-- C9: entering the logs view records its parent — the `l` key stores the
view it was pressed in (pod details or pod list) in `logSourceView`, the
containers-result handler that actually enters the logs view leaves that
record untouched, and escape from the logs view returns to exactly the
recorded parent, clearing the selected pod when the parent is the pod
list. -/
theorem logs_view_parent_memory (a : App)
    (h1 : a.confirmDialog.visible = false) (h2 : a.scaleDialog.visible = false)
    (h3 : a.helpScreen.visible = false) (h4 : a.containerSelector.visible = false)
    (h5 : a.podMultiSelector.visible = false)
    (h6 : a.passphraseInput.visible = false)
    (h7 : a.searchInput.visible = false) :
    (a.viewState = ViewState.podDetails → a.selectedPodName ≠ "" →
      (a.handleKeyMsg "l").1.logSourceView = ViewState.podDetails ∧
      (a.handleKeyMsg "l").2 = [Cmd.fetchContainers a.selectedPodName]) ∧
    (a.viewState = ViewState.pods → a.podList.settingFilter = false →
      ∀ p, a.podList.selectedItem = some p →
        (a.handleKeyMsg "l").1.logSourceView = ViewState.pods ∧
        (a.handleKeyMsg "l").1.selectedPodName = p.name ∧
        (a.handleKeyMsg "l").2 = [Cmd.fetchContainers p.name]) ∧
    (a.viewState = ViewState.logs →
      (a.logSourceView = ViewState.pods →
        (a.handleKeyMsg "esc").1.viewState = ViewState.pods ∧
        (a.handleKeyMsg "esc").1.selectedPodName = "") ∧
      (a.logSourceView = ViewState.podDetails →
        (a.handleKeyMsg "esc").1.viewState = ViewState.podDetails)) ∧
    (∀ cs err, (a.handleContainersResult cs err).1.logSourceView =
      a.logSourceView) := by
  refine ⟨?_, ?_, ?_, ?_⟩
  · intro hv hn
    simp [App.handleKeyMsg, App.keySwitch, hv, hn, h1, h2, h3, h4, h5, h6, h7]
  · intro hv hf p hp
    simp [App.handleKeyMsg, App.keySwitch, hv, hf, hp, h1, h2, h3, h4, h5, h6, h7]
  · intro hv
    constructor
    · intro hs
      cases hcl : a.logStreamCancel <;>
        simp [App.handleKeyMsg, App.keySwitch, App.stopLogStream, hv, hs, hcl,
              h1, h2, h3, h4, h5, h6, h7]
    · intro hs
      cases hcl : a.logStreamCancel <;>
        simp [App.handleKeyMsg, App.keySwitch, App.stopLogStream, hv, hs, hcl,
              h1, h2, h3, h4, h5, h6, h7]
  · intro cs err
    unfold App.handleContainersResult
    by_cases he : err = none
    · simp [he]
    · simp [he]

theorem logs_view_parent_memory_witness :
    c9App.viewState = ViewState.podDetails ∧ c9App.selectedPodName ≠ "" ∧
    ((c9App.handleKeyMsg "l").1.logSourceView = ViewState.podDetails ∧
     (c9App.handleKeyMsg "l").2 = [Cmd.fetchContainers c9App.selectedPodName]) :=
  ⟨by decide, by decide,
   (logs_view_parent_memory c9App (by decide) (by decide) (by decide) (by decide)
      (by decide) (by decide) (by decide)).1 (by decide) (by decide)⟩

/-- A key that is none of the multi-pod viewer's scroll bindings passes
through every child widget unchanged with no command. -/
theorem childUpdate_nonscroll (a : App) (k : String)
    (n1 : k ≠ "up") (n2 : k ≠ "down") (n3 : k ≠ "pgup") (n4 : k ≠ "pgdown")
    (n5 : k ≠ "k") (n6 : k ≠ "j") (n7 : k ≠ "G") (n8 : k ≠ "g") :
    a.childUpdate (Msg.key k) = (a, []) := by
  cases hv : a.viewState
  all_goals
    simp [App.childUpdate, hv, ListModel.update, LogViewer.update,
          CrictlLogViewer.update, EventViewer.update, MultiPodLogViewer.update,
          n1, n2, n3, n4, n5, n6, n7, n8]
  all_goals rw [← hv]

/-- C8 (counterexample): with no connection (status disconnected) but an
SSH host configured, the digit key 9 is not a no-op — it switches to the
SSH hosts view. -/
theorem digit9_disconnected_switches_counterexample :
    c8App.connectionStatus ≠ ConnectionStatus.connected ∧
    c8App.viewState ≠ ViewState.sshHosts ∧
    (c8App.handleKeyMsg "9").1.viewState = ViewState.sshHosts := by
  refine ⟨by decide, by decide, by decide⟩

/-- C8 (amended): in a state with no modal visible and no list filter being
edited, the digit keys 1–5 switch to their top-level view and emit that
view's fetch tasks exactly when the client is connected **and** the target
view differs from the current one, and otherwise leave the state unchanged
with no task; the digit key 9 switches to the SSH hosts view exactly when
at least one SSH host is configured — regardless of connection status —
emitting no fetch task, and is a no-op otherwise. -/
theorem digit_key_navigation (a : App)
    (h1 : a.confirmDialog.visible = false) (h2 : a.scaleDialog.visible = false)
    (h3 : a.helpScreen.visible = false) (h4 : a.containerSelector.visible = false)
    (h5 : a.podMultiSelector.visible = false)
    (h6 : a.passphraseInput.visible = false)
    (h7 : a.searchInput.visible = false)
    (hf1 : a.kubeConfigList.settingFilter = false)
    (hf2 : a.namespaceList.settingFilter = false)
    (hf3 : a.podList.settingFilter = false)
    (hf4 : a.sshHostList.settingFilter = false)
    (hf5 : a.crictlContainerList.settingFilter = false)
    (hcv : a.viewState ≠ ViewState.connecting) :
    ((a.connectionStatus = ConnectionStatus.connected ∧
        a.viewState ≠ ViewState.namespaces) →
      a.handleKeyMsg "1" =
        ({ a with viewState := ViewState.namespaces, loading := true },
         [Cmd.fetchNamespaces])) ∧
    (¬(a.connectionStatus = ConnectionStatus.connected ∧
        a.viewState ≠ ViewState.namespaces) →
      a.handleKeyMsg "1" = (a, [])) ∧
    ((a.connectionStatus = ConnectionStatus.connected ∧
        a.viewState ≠ ViewState.pods) →
      a.handleKeyMsg "2" =
        ({ a with viewState := ViewState.pods, loading := true },
         [Cmd.fetchPods, Cmd.schedulePodRefresh])) ∧
    (¬(a.connectionStatus = ConnectionStatus.connected ∧
        a.viewState ≠ ViewState.pods) →
      a.handleKeyMsg "2" = (a, [])) ∧
    ((a.connectionStatus = ConnectionStatus.connected ∧
        a.viewState ≠ ViewState.deployments) →
      a.handleKeyMsg "3" =
        ({ a with viewState := ViewState.deployments, loading := true },
         [Cmd.fetchDeployments])) ∧
    (¬(a.connectionStatus = ConnectionStatus.connected ∧
        a.viewState ≠ ViewState.deployments) →
      a.handleKeyMsg "3" = (a, [])) ∧
    ((a.connectionStatus = ConnectionStatus.connected ∧
        a.viewState ≠ ViewState.services) →
      a.handleKeyMsg "4" =
        ({ a with viewState := ViewState.services, loading := true },
         [Cmd.fetchServices])) ∧
    (¬(a.connectionStatus = ConnectionStatus.connected ∧
        a.viewState ≠ ViewState.services) →
      a.handleKeyMsg "4" = (a, [])) ∧
    ((a.connectionStatus = ConnectionStatus.connected ∧
        a.viewState ≠ ViewState.events) →
      a.handleKeyMsg "5" =
        ({ a with viewState := ViewState.events, loading := true },
         [Cmd.fetchEvents, Cmd.scheduleEventRefresh])) ∧
    (¬(a.connectionStatus = ConnectionStatus.connected ∧
        a.viewState ≠ ViewState.events) →
      a.handleKeyMsg "5" = (a, [])) ∧
    (a.config.sshHosts ≠ [] →
      a.handleKeyMsg "9" =
        ({ a with viewState := ViewState.sshHosts, err := none }, [])) ∧
    (a.config.sshHosts = [] → a.handleKeyMsg "9" = (a, [])) := by
  have hch : ∀ k, k = "1" ∨ k = "2" ∨ k = "3" ∨ k = "4" ∨ k = "5" ∨ k = "9" →
      a.childUpdate (Msg.key k) = (a, []) := by
    intro k hk
    rcases hk with rfl | rfl | rfl | rfl | rfl | rfl <;>
      exact childUpdate_nonscroll a _ (by decide) (by decide) (by decide)
        (by decide) (by decide) (by decide) (by decide) (by decide)
  refine ⟨?_, ?_, ?_, ?_, ?_, ?_, ?_, ?_, ?_, ?_, ?_, ?_⟩ <;>
    intro h
  case _ =>
    obtain ⟨hc, hv⟩ := h
    simp [App.handleKeyMsg, App.keySwitch, hc, hv, h1, h2, h3, h4, h5, h6, h7,
          hf1, hf2, hf3, hf4, hf5, hcv]
  case _ =>
    by_cases hc : a.connectionStatus = ConnectionStatus.connected
    · have hv : a.viewState = ViewState.namespaces := by tauto
      simp [App.handleKeyMsg, App.keySwitch, hc, hv, hch "1" (by tauto),
            h1, h2, h3, h4, h5, h6, h7, hf1, hf2, hf3, hf4, hf5, hcv]
    · simp [App.handleKeyMsg, App.keySwitch, hc, hch "1" (by tauto),
            h1, h2, h3, h4, h5, h6, h7, hf1, hf2, hf3, hf4, hf5, hcv]
  case _ =>
    obtain ⟨hc, hv⟩ := h
    simp [App.handleKeyMsg, App.keySwitch, hc, hv, h1, h2, h3, h4, h5, h6, h7,
          hf1, hf2, hf3, hf4, hf5, hcv]
  case _ =>
    by_cases hc : a.connectionStatus = ConnectionStatus.connected
    · have hv : a.viewState = ViewState.pods := by tauto
      simp [App.handleKeyMsg, App.keySwitch, hc, hv, hch "2" (by tauto),
            h1, h2, h3, h4, h5, h6, h7, hf1, hf2, hf3, hf4, hf5, hcv]
    · simp [App.handleKeyMsg, App.keySwitch, hc, hch "2" (by tauto),
            h1, h2, h3, h4, h5, h6, h7, hf1, hf2, hf3, hf4, hf5, hcv]
  case _ =>
    obtain ⟨hc, hv⟩ := h
    simp [App.handleKeyMsg, App.keySwitch, hc, hv, h1, h2, h3, h4, h5, h6, h7,
          hf1, hf2, hf3, hf4, hf5, hcv]
  case _ =>
    by_cases hc : a.connectionStatus = ConnectionStatus.connected
    · have hv : a.viewState = ViewState.deployments := by tauto
      simp [App.handleKeyMsg, App.keySwitch, hc, hv, hch "3" (by tauto),
            h1, h2, h3, h4, h5, h6, h7, hf1, hf2, hf3, hf4, hf5, hcv]
    · simp [App.handleKeyMsg, App.keySwitch, hc, hch "3" (by tauto),
            h1, h2, h3, h4, h5, h6, h7, hf1, hf2, hf3, hf4, hf5, hcv]
  case _ =>
    obtain ⟨hc, hv⟩ := h
    simp [App.handleKeyMsg, App.keySwitch, hc, hv, h1, h2, h3, h4, h5, h6, h7,
          hf1, hf2, hf3, hf4, hf5, hcv]
  case _ =>
    by_cases hc : a.connectionStatus = ConnectionStatus.connected
    · have hv : a.viewState = ViewState.services := by tauto
      simp [App.handleKeyMsg, App.keySwitch, hc, hv, hch "4" (by tauto),
            h1, h2, h3, h4, h5, h6, h7, hf1, hf2, hf3, hf4, hf5, hcv]
    · simp [App.handleKeyMsg, App.keySwitch, hc, hch "4" (by tauto),
            h1, h2, h3, h4, h5, h6, h7, hf1, hf2, hf3, hf4, hf5, hcv]
  case _ =>
    obtain ⟨hc, hv⟩ := h
    simp [App.handleKeyMsg, App.keySwitch, hc, hv, h1, h2, h3, h4, h5, h6, h7,
          hf1, hf2, hf3, hf4, hf5, hcv]
  case _ =>
    by_cases hc : a.connectionStatus = ConnectionStatus.connected
    · have hv : a.viewState = ViewState.events := by tauto
      simp [App.handleKeyMsg, App.keySwitch, hc, hv, hch "5" (by tauto),
            h1, h2, h3, h4, h5, h6, h7, hf1, hf2, hf3, hf4, hf5, hcv]
    · simp [App.handleKeyMsg, App.keySwitch, hc, hch "5" (by tauto),
            h1, h2, h3, h4, h5, h6, h7, hf1, hf2, hf3, hf4, hf5, hcv]
  case _ =>
    simp [App.handleKeyMsg, App.keySwitch, h, h1, h2, h3, h4, h5, h6, h7,
          hf1, hf2, hf3, hf4, hf5, hcv]
  case _ =>
    simp [App.handleKeyMsg, App.keySwitch, h, hch "9" (by tauto),
          h1, h2, h3, h4, h5, h6, h7, hf1, hf2, hf3, hf4, hf5, hcv]

theorem digit_key_navigation_witness :
    c8App.viewState ≠ ViewState.connecting ∧
    c8App.config.sshHosts ≠ [] ∧
    c8App.handleKeyMsg "9" =
      ({ c8App with viewState := ViewState.sshHosts, err := none }, []) :=
  ⟨by decide, by decide,
   (digit_key_navigation c8App (by decide) (by decide) (by decide) (by decide)
      (by decide) (by decide) (by decide) (by decide) (by decide) (by decide)
      (by decide) (by decide) (by decide)).2.2.2.2.2.2.2.2.2.2.1 (by decide)⟩

/-- C3 (counterexample): the at-most-one-modal invariant and the exclusive
modal routing both fail on reachable states.  Processing `c3Script` from the
startup state leaves the confirm dialog **and** the passphrase input visible
at once (a stale passphrase-required SSH connect result shows the
passphrase modal without checking other modals); and at the intermediate
state with the confirm dialog open, a periodic tick message is processed by
the refresh logic — re-arming the timer and leaving the dialog untouched —
instead of being routed to the visible modal. -/
theorem modal_invariant_counterexample :
    c3Final.confirmDialog.visible = true ∧
    c3Final.passphraseInput.visible = true ∧
    c3Mid.confirmDialog.visible = true ∧
    (c3Mid.Update Msg.podRefreshTick).2 = [Cmd.schedulePodRefresh] ∧
    (c3Mid.Update Msg.podRefreshTick).1.confirmDialog = c3Mid.confirmDialog := by
  refine ⟨by decide, by decide, by decide, by decide, by decide⟩

/-- The confirm-dialog block leaves every other modal untouched. -/
theorem routeToConfirmDialog_modals (a : App) (m : Msg) :
    (a.routeToConfirmDialog m).1.scaleDialog = a.scaleDialog ∧
    (a.routeToConfirmDialog m).1.helpScreen = a.helpScreen ∧
    (a.routeToConfirmDialog m).1.containerSelector = a.containerSelector ∧
    (a.routeToConfirmDialog m).1.podMultiSelector = a.podMultiSelector ∧
    (a.routeToConfirmDialog m).1.passphraseInput = a.passphraseInput ∧
    (a.routeToConfirmDialog m).1.searchInput = a.searchInput := by
  unfold App.routeToConfirmDialog
  rcases hr : a.confirmDialog.update m with ⟨d, cf, cc, cmd⟩
  simp only [hr]
  cases cf <;> cases cc <;> cases hd : d.action <;>
    simp [ConfirmDialog.Hide]

/-- The scale-dialog block leaves every other modal untouched. -/
theorem routeToScaleDialog_modals (a : App) (m : Msg) :
    (a.routeToScaleDialog m).1.confirmDialog = a.confirmDialog ∧
    (a.routeToScaleDialog m).1.helpScreen = a.helpScreen ∧
    (a.routeToScaleDialog m).1.containerSelector = a.containerSelector ∧
    (a.routeToScaleDialog m).1.podMultiSelector = a.podMultiSelector ∧
    (a.routeToScaleDialog m).1.passphraseInput = a.passphraseInput ∧
    (a.routeToScaleDialog m).1.searchInput = a.searchInput := by
  unfold App.routeToScaleDialog
  rcases hr : a.scaleDialog.update m with ⟨d, cf, cc, cmd⟩
  simp only [hr]
  cases cf <;> cases cc <;> simp [ScaleDialog.Hide]

/-- The container-selector block leaves every other modal untouched. -/
theorem routeToContainerSelector_modals (a : App) (m : Msg) :
    (a.routeToContainerSelector m).1.confirmDialog = a.confirmDialog ∧
    (a.routeToContainerSelector m).1.scaleDialog = a.scaleDialog ∧
    (a.routeToContainerSelector m).1.helpScreen = a.helpScreen ∧
    (a.routeToContainerSelector m).1.podMultiSelector = a.podMultiSelector ∧
    (a.routeToContainerSelector m).1.passphraseInput = a.passphraseInput ∧
    (a.routeToContainerSelector m).1.searchInput = a.searchInput := by
  unfold App.routeToContainerSelector
  rcases hr : a.containerSelector.update m with ⟨c, sel, cc, cmd⟩
  cases hcl : a.logStreamCancel <;> simp only [hr] <;>
    cases sel <;> cases cc <;>
    simp [ContainerSelector.Hide, LogViewer.SetContainer, App.stopLogStream, hcl]

/-- `startSinglePodStream` leaves every modal untouched. -/
theorem startSinglePodStream_modals (a : App) (ctx : Nat) (ns p c : String)
    (w : Bool) :
    (a.startSinglePodStream ctx ns p c w).1.confirmDialog = a.confirmDialog ∧
    (a.startSinglePodStream ctx ns p c w).1.scaleDialog = a.scaleDialog ∧
    (a.startSinglePodStream ctx ns p c w).1.helpScreen = a.helpScreen ∧
    (a.startSinglePodStream ctx ns p c w).1.containerSelector =
      a.containerSelector ∧
    (a.startSinglePodStream ctx ns p c w).1.podMultiSelector =
      a.podMultiSelector ∧
    (a.startSinglePodStream ctx ns p c w).1.passphraseInput =
      a.passphraseInput ∧
    (a.startSinglePodStream ctx ns p c w).1.searchInput = a.searchInput := by
  simp [App.startSinglePodStream]

/-- One multi-pod start step leaves every modal untouched. -/
theorem startMultiPodStep_modals (ctx : Nat) (pcm : List (String × String))
    (acc : App × List Cmd) (p : String) :
    (App.startMultiPodStep ctx pcm acc p).1.confirmDialog =
      acc.1.confirmDialog ∧
    (App.startMultiPodStep ctx pcm acc p).1.scaleDialog = acc.1.scaleDialog ∧
    (App.startMultiPodStep ctx pcm acc p).1.helpScreen = acc.1.helpScreen ∧
    (App.startMultiPodStep ctx pcm acc p).1.containerSelector =
      acc.1.containerSelector ∧
    (App.startMultiPodStep ctx pcm acc p).1.podMultiSelector =
      acc.1.podMultiSelector ∧
    (App.startMultiPodStep ctx pcm acc p).1.passphraseInput =
      acc.1.passphraseInput ∧
    (App.startMultiPodStep ctx pcm acc p).1.searchInput = acc.1.searchInput := by
  simp [App.startMultiPodStep, App.startSinglePodStream]

/-- The multi-pod start loop leaves every modal untouched. -/
theorem startMultiPod_fold_modals (pods : List String) (ctx : Nat)
    (pcm : List (String × String)) (acc : App × List Cmd) :
    ((pods.foldl (App.startMultiPodStep ctx pcm) acc).1).confirmDialog =
      acc.1.confirmDialog ∧
    ((pods.foldl (App.startMultiPodStep ctx pcm) acc).1).scaleDialog =
      acc.1.scaleDialog ∧
    ((pods.foldl (App.startMultiPodStep ctx pcm) acc).1).helpScreen =
      acc.1.helpScreen ∧
    ((pods.foldl (App.startMultiPodStep ctx pcm) acc).1).containerSelector =
      acc.1.containerSelector ∧
    ((pods.foldl (App.startMultiPodStep ctx pcm) acc).1).podMultiSelector =
      acc.1.podMultiSelector ∧
    ((pods.foldl (App.startMultiPodStep ctx pcm) acc).1).passphraseInput =
      acc.1.passphraseInput ∧
    ((pods.foldl (App.startMultiPodStep ctx pcm) acc).1).searchInput =
      acc.1.searchInput := by
  induction pods generalizing acc with
  | nil => exact ⟨rfl, rfl, rfl, rfl, rfl, rfl, rfl⟩
  | cons p rest ih =>
      rw [List.foldl_cons]
      obtain ⟨i1, i2, i3, i4, i5, i6, i7⟩ :=
        ih (App.startMultiPodStep ctx pcm acc p)
      obtain ⟨t1, t2, t3, t4, t5, t6, t7⟩ := startMultiPodStep_modals ctx pcm acc p
      exact ⟨i1.trans t1, i2.trans t2, i3.trans t3, i4.trans t4, i5.trans t5,
             i6.trans t6, i7.trans t7⟩

/-- `stopMultiPodStreams` leaves every modal untouched. -/
theorem stopMultiPodStreams_modals (a : App) :
    a.stopMultiPodStreams.confirmDialog = a.confirmDialog ∧
    a.stopMultiPodStreams.scaleDialog = a.scaleDialog ∧
    a.stopMultiPodStreams.helpScreen = a.helpScreen ∧
    a.stopMultiPodStreams.containerSelector = a.containerSelector ∧
    a.stopMultiPodStreams.podMultiSelector = a.podMultiSelector ∧
    a.stopMultiPodStreams.passphraseInput = a.passphraseInput ∧
    a.stopMultiPodStreams.searchInput = a.searchInput := by
  unfold App.stopMultiPodStreams
  cases a.multiPodStreamCancel <;> exact ⟨rfl, rfl, rfl, rfl, rfl, rfl, rfl⟩

/-- `startMultiPodStreaming` leaves every modal untouched. -/
theorem startMultiPodStreaming_modals (a : App) (pods : List String) :
    (a.startMultiPodStreaming pods).1.confirmDialog = a.confirmDialog ∧
    (a.startMultiPodStreaming pods).1.scaleDialog = a.scaleDialog ∧
    (a.startMultiPodStreaming pods).1.helpScreen = a.helpScreen ∧
    (a.startMultiPodStreaming pods).1.containerSelector = a.containerSelector ∧
    (a.startMultiPodStreaming pods).1.podMultiSelector = a.podMultiSelector ∧
    (a.startMultiPodStreaming pods).1.passphraseInput = a.passphraseInput ∧
    (a.startMultiPodStreaming pods).1.searchInput = a.searchInput := by
  unfold App.startMultiPodStreaming
  by_cases hk : a.hasK8sClient
  · rw [if_neg (by simp [hk])]
    obtain ⟨s1, s2, s3, s4, s5, s6, s7⟩ := stopMultiPodStreams_modals a
    refine ⟨?_, ?_, ?_, ?_, ?_, ?_, ?_⟩
    · exact ((startMultiPod_fold_modals _ _ _ _).1).trans (by simp [s1])
    · exact ((startMultiPod_fold_modals _ _ _ _).2.1).trans (by simp [s2])
    · exact ((startMultiPod_fold_modals _ _ _ _).2.2.1).trans (by simp [s3])
    · exact ((startMultiPod_fold_modals _ _ _ _).2.2.2.1).trans (by simp [s4])
    · exact ((startMultiPod_fold_modals _ _ _ _).2.2.2.2.1).trans (by simp [s5])
    · exact ((startMultiPod_fold_modals _ _ _ _).2.2.2.2.2.1).trans
        (by simp [s6])
    · exact ((startMultiPod_fold_modals _ _ _ _).2.2.2.2.2.2).trans
        (by simp [s7])
  · simp [hk]

theorem startMultiPodStreaming_confirm (a : App) (pods : List String) :
    (a.startMultiPodStreaming pods).1.confirmDialog = a.confirmDialog :=
  (startMultiPodStreaming_modals a pods).1

theorem startMultiPodStreaming_scale (a : App) (pods : List String) :
    (a.startMultiPodStreaming pods).1.scaleDialog = a.scaleDialog :=
  (startMultiPodStreaming_modals a pods).2.1

theorem startMultiPodStreaming_help (a : App) (pods : List String) :
    (a.startMultiPodStreaming pods).1.helpScreen = a.helpScreen :=
  (startMultiPodStreaming_modals a pods).2.2.1

theorem startMultiPodStreaming_contSel (a : App) (pods : List String) :
    (a.startMultiPodStreaming pods).1.containerSelector = a.containerSelector :=
  (startMultiPodStreaming_modals a pods).2.2.2.1

theorem startMultiPodStreaming_passphrase (a : App) (pods : List String) :
    (a.startMultiPodStreaming pods).1.passphraseInput = a.passphraseInput :=
  (startMultiPodStreaming_modals a pods).2.2.2.2.2.1

theorem startMultiPodStreaming_search (a : App) (pods : List String) :
    (a.startMultiPodStreaming pods).1.searchInput = a.searchInput :=
  (startMultiPodStreaming_modals a pods).2.2.2.2.2.2

/-- The pod-multi-selector block leaves every other modal untouched. -/
theorem routeToPodMultiSelector_modals (a : App) (m : Msg) :
    (a.routeToPodMultiSelector m).1.confirmDialog = a.confirmDialog ∧
    (a.routeToPodMultiSelector m).1.scaleDialog = a.scaleDialog ∧
    (a.routeToPodMultiSelector m).1.helpScreen = a.helpScreen ∧
    (a.routeToPodMultiSelector m).1.containerSelector = a.containerSelector ∧
    (a.routeToPodMultiSelector m).1.passphraseInput = a.passphraseInput ∧
    (a.routeToPodMultiSelector m).1.searchInput = a.searchInput := by
  unfold App.routeToPodMultiSelector
  rcases hr : a.podMultiSelector.update m with ⟨s, cf, cc, cmd⟩
  simp only [hr]
  cases cf <;> cases cc <;> by_cases hp : s.SelectedPods = [] <;>
    simp [PodMultiSelector.Hide, hp, startMultiPodStreaming_confirm,
          startMultiPodStreaming_scale, startMultiPodStreaming_help,
          startMultiPodStreaming_contSel, startMultiPodStreaming_passphrase,
          startMultiPodStreaming_search]

/-- The passphrase-input block leaves every other modal untouched. -/
theorem routeToPassphraseInput_modals (a : App) (m : Msg) :
    (a.routeToPassphraseInput m).1.confirmDialog = a.confirmDialog ∧
    (a.routeToPassphraseInput m).1.scaleDialog = a.scaleDialog ∧
    (a.routeToPassphraseInput m).1.helpScreen = a.helpScreen ∧
    (a.routeToPassphraseInput m).1.containerSelector = a.containerSelector ∧
    (a.routeToPassphraseInput m).1.podMultiSelector = a.podMultiSelector ∧
    (a.routeToPassphraseInput m).1.searchInput = a.searchInput := by
  unfold App.routeToPassphraseInput
  rcases hr : a.passphraseInput.update m with ⟨p, pass, sub, cc, cmd⟩
  simp only [hr]
  cases sub <;> cases cc <;> simp [PassphraseInput.Hide] <;> split_ifs <;> simp

/-- The search-input block leaves every other modal untouched. -/
theorem routeToSearchInput_modals (a : App) (m : Msg) :
    (a.routeToSearchInput m).1.confirmDialog = a.confirmDialog ∧
    (a.routeToSearchInput m).1.scaleDialog = a.scaleDialog ∧
    (a.routeToSearchInput m).1.helpScreen = a.helpScreen ∧
    (a.routeToSearchInput m).1.containerSelector = a.containerSelector ∧
    (a.routeToSearchInput m).1.podMultiSelector = a.podMultiSelector ∧
    (a.routeToSearchInput m).1.passphraseInput = a.passphraseInput := by
  unfold App.routeToSearchInput
  rcases hr : a.searchInput.update m with ⟨s, q, sub, cc, cmd⟩
  simp only [hr]
  cases sub <;> cases cc <;>
    simp [SearchInput.Hide, LogViewer.SetSearchQuery,
          CrictlLogViewer.SetSearchQuery] <;>
    split_ifs <;> simp

/-- C3 (amended): for key messages processed outside the connecting view,
the dispatcher checks modal visibility in the fixed priority order confirm,
scale, help, container-selector, multi-pod-selector, passphrase, search;
the first visible modal in that order consumes the key — before any list
filter, the top-level key switch, or the current view's child widget — and
handling the key leaves every other modal's visibility unchanged. -/
theorem modal_priority_key_routing (a : App) (k : String) (m : ModalId)
    (hcv : a.viewState ≠ ViewState.connecting)
    (hm : a.firstVisibleModal = some m) :
    a.keyConsumer k = KeyConsumer.modal m ∧
    ∀ m', m' ≠ m → (a.handleKeyMsg k).1.modalVisible m' = a.modalVisible m' := by
  simp only [App.firstVisibleModal, modalPriority, List.find?,
             App.modalVisible] at hm
  cases h1 : a.confirmDialog.visible
  case true =>
    simp only [h1] at hm
    obtain rfl : ModalId.confirm = m := by simpa using hm
    refine ⟨by simp [App.keyConsumer, hcv, h1], ?_⟩
    intro m' hne
    have hred : a.handleKeyMsg k = a.routeToConfirmDialog (Msg.key k) := by
      simp [App.handleKeyMsg, hcv, h1]
    obtain ⟨e1, e2, e3, e4, e5, e6⟩ := routeToConfirmDialog_modals a (Msg.key k)
    cases m' <;> first
      | exact absurd rfl hne
      | simp [App.modalVisible, hred, e1, e2, e3, e4, e5, e6]
  case false =>
  cases h2 : a.scaleDialog.visible
  case true =>
    simp only [h1, h2] at hm
    obtain rfl : ModalId.scale = m := by simpa using hm
    refine ⟨by simp [App.keyConsumer, hcv, h1, h2], ?_⟩
    intro m' hne
    have hred : a.handleKeyMsg k = a.routeToScaleDialog (Msg.key k) := by
      simp [App.handleKeyMsg, hcv, h1, h2]
    obtain ⟨e1, e2, e3, e4, e5, e6⟩ := routeToScaleDialog_modals a (Msg.key k)
    cases m' <;> first
      | exact absurd rfl hne
      | simp [App.modalVisible, hred, e1, e2, e3, e4, e5, e6]
  case false =>
  cases h3 : a.helpScreen.visible
  case true =>
    simp only [h1, h2, h3] at hm
    obtain rfl : ModalId.help = m := by simpa using hm
    refine ⟨by simp [App.keyConsumer, hcv, h1, h2, h3], ?_⟩
    intro m' hne
    have hred : a.handleKeyMsg k =
        if k = "?" ∨ k = "esc" then
          ({ a with helpScreen := a.helpScreen.Hide }, [])
        else (a, []) := by
      simp [App.handleKeyMsg, hcv, h1, h2, h3]
    by_cases hk : k = "?" ∨ k = "esc" <;> cases m' <;> first
      | exact absurd rfl hne
      | simp [App.modalVisible, hred, hk]
  case false =>
  cases h4 : a.containerSelector.visible
  case true =>
    simp only [h1, h2, h3, h4] at hm
    obtain rfl : ModalId.containerSel = m := by simpa using hm
    refine ⟨by simp [App.keyConsumer, hcv, h1, h2, h3, h4], ?_⟩
    intro m' hne
    have hred : a.handleKeyMsg k = a.routeToContainerSelector (Msg.key k) := by
      simp [App.handleKeyMsg, hcv, h1, h2, h3, h4]
    obtain ⟨e1, e2, e3, e4, e5, e6⟩ :=
      routeToContainerSelector_modals a (Msg.key k)
    cases m' <;> first
      | exact absurd rfl hne
      | simp [App.modalVisible, hred, e1, e2, e3, e4, e5, e6]
  case false =>
  cases h5 : a.podMultiSelector.visible
  case true =>
    simp only [h1, h2, h3, h4, h5] at hm
    obtain rfl : ModalId.multiSel = m := by simpa using hm
    refine ⟨by simp [App.keyConsumer, hcv, h1, h2, h3, h4, h5], ?_⟩
    intro m' hne
    have hred : a.handleKeyMsg k = a.routeToPodMultiSelector (Msg.key k) := by
      simp [App.handleKeyMsg, hcv, h1, h2, h3, h4, h5]
    obtain ⟨e1, e2, e3, e4, e5, e6⟩ :=
      routeToPodMultiSelector_modals a (Msg.key k)
    cases m' <;> first
      | exact absurd rfl hne
      | simp [App.modalVisible, hred, e1, e2, e3, e4, e5, e6]
  case false =>
  cases h6 : a.passphraseInput.visible
  case true =>
    simp only [h1, h2, h3, h4, h5, h6] at hm
    obtain rfl : ModalId.passphrase = m := by simpa using hm
    refine ⟨by simp [App.keyConsumer, hcv, h1, h2, h3, h4, h5, h6], ?_⟩
    intro m' hne
    have hred : a.handleKeyMsg k = a.routeToPassphraseInput (Msg.key k) := by
      simp [App.handleKeyMsg, hcv, h1, h2, h3, h4, h5, h6]
    obtain ⟨e1, e2, e3, e4, e5, e6⟩ :=
      routeToPassphraseInput_modals a (Msg.key k)
    cases m' <;> first
      | exact absurd rfl hne
      | simp [App.modalVisible, hred, e1, e2, e3, e4, e5, e6]
  case false =>
  cases h7 : a.searchInput.visible
  case true =>
    simp only [h1, h2, h3, h4, h5, h6, h7] at hm
    obtain rfl : ModalId.search = m := by simpa using hm
    refine ⟨by simp [App.keyConsumer, hcv, h1, h2, h3, h4, h5, h6, h7], ?_⟩
    intro m' hne
    have hred : a.handleKeyMsg k = a.routeToSearchInput (Msg.key k) := by
      simp [App.handleKeyMsg, hcv, h1, h2, h3, h4, h5, h6, h7]
    obtain ⟨e1, e2, e3, e4, e5, e6⟩ := routeToSearchInput_modals a (Msg.key k)
    cases m' <;> first
      | exact absurd rfl hne
      | simp [App.modalVisible, hred, e1, e2, e3, e4, e5, e6]
  case false =>
    simp only [h1, h2, h3, h4, h5, h6, h7] at hm
    exact absurd hm (by simp)

theorem modal_priority_key_routing_witness :
    c3WitnessApp.viewState ≠ ViewState.connecting ∧
    c3WitnessApp.firstVisibleModal = some ModalId.confirm ∧
    c3WitnessApp.keyConsumer "x" = KeyConsumer.modal ModalId.confirm ∧
    (c3WitnessApp.handleKeyMsg "x").1.modalVisible ModalId.passphrase =
      c3WitnessApp.modalVisible ModalId.passphrase :=
  ⟨by decide, by decide,
   (modal_priority_key_routing c3WitnessApp "x" ModalId.confirm (by decide)
      (by decide)).1,
   (modal_priority_key_routing c3WitnessApp "x" ModalId.confirm (by decide)
      (by decide)).2 ModalId.passphrase (by decide)⟩

theorem logStreamEnded_restart_policy_witness :
    c2App.logViewer.following = true ∧ c2App.viewState = ViewState.logs ∧
    c2App.hasK8sClient = true ∧
    singleStreamStarts (c2App.handleLogStreamEnded none).2 =
      [(c2App.logViewer.podName,
        ⟨c2App.logViewer.container, 0, c2App.logViewer.timestamps, true⟩)] :=
  ⟨by decide, by decide, by decide,
   (logStreamEnded_restart_policy c2App none (by decide) (by decide)
      (by decide)).2 (by decide)⟩

end K4s
